import Mathlib

/-!
# multiconsumer: a fleet of Kafka consumers with reconnect and a filtered logger

A shallow embedding of `consumer.go`, `config.go` and the handler registry of
the `multiconsumer` repository, followed by theorems about the log filter, the
consume loop, fleet start-up and shut-down, and environment selection.

Conventions of the embedding.

* Closures are represented by the values they capture: the function returned by
  `customLogger` is the record `Logger`, and applying it is `Logger.call`.
* Effects are recorded as a trace of `Event`s, in program order of the
  goroutine that performs them.
* What the outside world decides (the outcome of a fetch, of a commit, of
  closing a reader, of opening a log file, the wall-clock stamp of a log line)
  is an explicit input.
* `fmt.Sprintf` and `log.Logger.Printf` belong to the Go standard library; the
  fragment of them the program relies on is modelled by `Sprintf` and
  `Logger.Printf` below.
-/

namespace Multiconsumer

/-! ## Data model (`config.go`) -/

/-- RedisConfig represents Redis connection details. -/
structure RedisConfig where
  Host : String
  Port : Int
  deriving DecidableEq, Repr

/-- MongoConfig represents MongoDB connection details. -/
structure MongoConfig where
  Server : String
  Port : Int
  Username : String
  Password : String
  Database : String
  deriving DecidableEq, Repr

/-- MySQLConfig represents MySQL connection details. -/
structure MySQLConfig where
  Host : String
  Port : Int
  User : String
  Password : String
  Database : String
  deriving DecidableEq, Repr

/-- EnvConfig is the generic per-environment configuration `EnvConfig[T]`. -/
structure EnvConfig (T : Type) where
  Production : T
  Development : T
  Staging : T
  deriving DecidableEq, Repr

/-- A decoded JSON leaf of the `settings` mapping; numbers and nested values
keep their JSON text. -/
inductive JsonValue where
  | null
  | bool (b : Bool)
  | num (literal : String)
  | str (s : String)
  | composite (json : String)
  deriving DecidableEq, Repr

/-- One entry of `Settings map[string]interface{}`: a leaf, or a nested
`map[string]interface{}` such as `mappings`. -/
inductive Setting where
  | value (v : JsonValue)
  | object (fields : List (String × JsonValue))
  deriving DecidableEq, Repr

/-- ConsumerConfig represents the configuration for a Kafka consumer. -/
structure ConsumerConfig where
  Brokers : List String
  Topic : String
  GroupID : String
  LogFile : String
  LogPrefix : String
  DebugMode : Bool
  Settings : List (String × Setting)
  HandlerName : String
  deriving DecidableEq, Repr

/-- FullConfig represents the entire application configuration. -/
structure FullConfig where
  Redis : EnvConfig RedisConfig
  Mongo : EnvConfig MongoConfig
  MySQL : EnvConfig MySQLConfig
  KafkaConsumers : List ConsumerConfig
  deriving DecidableEq, Repr

/-- The part of `kafka.Message` the program looks at. -/
structure Message where
  Topic : String
  Partition : Int
  Offset : Int
  Key : List Nat
  Value : List Nat
  deriving DecidableEq, Repr

/-! ## The fragment of `fmt` and `strings` used by the logger -/

/-- An operand of a formatting call: the program passes strings (topic names,
error texts, rendered settings) and integers (ports). -/
inductive Arg where
  | str (s : String)
  | int (n : Int)
  deriving DecidableEq, Repr

/-- Go type name of an operand, as printed inside `%!verb(type=value)`. -/
def Arg.typeName : Arg → List Char
  | .str _ => "string".data
  | .int _ => "int".data

/-- The `%v` rendering of an operand; `plus` is the `+` flag. -/
def Arg.render (plus : Bool) : Arg → List Char
  | .str s => s.data
  | .int n => (if plus && decide (0 ≤ n) then ['+'] else []) ++ (toString n).data

/-- The `%!verb(type=value)` text `fmt` prints for a verb that does not fit
its operand. -/
def badVerb (plus : Bool) (verb : Char) (a : Arg) : List Char :=
  "%!".data ++ [verb] ++ "(".data ++ a.typeName ++ "=".data ++ a.render plus ++ ")".data

/-- The text of one operand under one verb, `fmt`'s `printArg`, for the verbs
`v`, `s` and `d`.  Under `v` the `+` flag asks for field names, which strings
and integers do not have, and prints no sign. -/
def printArg (plus : Bool) (verb : Char) (a : Arg) : List Char :=
  if verb = 'v' then a.render false
  else if verb = 's' then
    match a with
    | .str s => s.data
    | .int _ => badVerb plus verb a
  else if verb = 'd' then
    match a with
    | .int _ => a.render plus
    | .str _ => badVerb plus verb a
  else badVerb plus verb a

/-- The `type=value` list inside `%!(EXTRA ...)`. -/
def extraList : List Arg → List Char
  | [] => []
  | [a] => a.typeName ++ "=".data ++ a.render false
  | a :: b :: rest => a.typeName ++ "=".data ++ a.render false ++ ", ".data ++ extraList (b :: rest)

/-- What `fmt` appends when operands are left over at the end of the format. -/
def extraArgs : List Arg → List Char
  | [] => []
  | a :: rest => "%!(EXTRA ".data ++ extraList (a :: rest) ++ ")".data

/-- The formatting loop of `fmt` (`doPrintf`) on the characters of the format.
`inVerb = none` while copying literal text; `inVerb = some plus` after a `%`
has been read (with the `+` flag seen or not).  Modelled: literal text, `%%`,
the `+` flag, the verbs `%v %s %d`, `%!(NOVERB)`, `%!verb(MISSING)`,
`%!verb(type=value)` and `%!(EXTRA ...)`.  This is the text `fmt` produces
when every `%` of the format is followed, after any `+`, by `%`, `v`, `s` or
`d` (or, when there is no operand left, by any character that does not start
a width, a precision, an argument index or another flag: see
`simpleDirectives`).  Width, precision, argument indices, the flags `#`, `0`,
`-` and space, and the other verbs are not modelled: on a format that uses
them the result is not the text of `fmt`. -/
def doPrintf : Option Bool → List Char → List Arg → List Char
  | none, [], args => extraArgs args
  | none, c :: rest, args =>
      if c = '%' then doPrintf (some false) rest args
      else c :: doPrintf none rest args
  | some _, [], args => "%!(NOVERB)".data ++ extraArgs args
  | some plus, c :: rest, args =>
      if c = '+' then doPrintf (some true) rest args
      else if c = '%' then '%' :: doPrintf none rest args
      else
        match args with
        | [] => "%!".data ++ [c] ++ "(MISSING)".data ++ doPrintf none rest []
        | a :: more => printArg plus c a ++ doPrintf none rest more

/-- The Go call `fmt.Sprintf(format, args...)`. -/
def Sprintf (format : String) (args : List Arg) : String :=
  String.mk (doPrintf none format.data args)

/-- Whether `sub` is a leading segment of `s`. -/
def hasLeading : List Char → List Char → Bool
  | [], _ => true
  | _ :: _, [] => false
  | a :: sub, b :: s => a = b && hasLeading sub s

/-- Whether `sub` occurs in `s` as a contiguous segment. -/
def containsChars (sub : List Char) : List Char → Bool
  | [] => sub.isEmpty
  | c :: s => hasLeading sub (c :: s) || containsChars sub s

/-- The Go call `strings.Contains(s, substr)`. -/
def stringsContains (s substr : String) : Bool :=
  containsChars substr.data s.data

/-! ## The logger (`customLogger`, `consumer.go`) -/

/-- The function value returned by `customLogger`, represented by the
variables it captures: the bracketed tag of the `log.Logger` (the source's
first parameter), the opened log file (by path) and `enableDebug`. -/
structure Logger where
  tag : String
  file : String
  enableDebug : Bool
  deriving DecidableEq, Repr

/-- The phrases whose presence in a message template silences the call. -/
def suppressedPhrases : List String :=
  ["no messages received from kafka", "topic: ", "partition "]

/-- The header `log.Logger` puts before the message under
`log.Ldate|log.Ltime|log.Lshortfile`: logger tag, date and time (`stamp`), and
the call site of `Printf`, which is always line 48 of `consumer.go`. -/
def Logger.header (l : Logger) (stamp : String) : String :=
  "[" ++ l.tag ++ "] " ++ stamp ++ " consumer.go:48: "

/-- Text `log.Logger` appends after the message: a newline unless the message
already ends with one. -/
def lineEnd (s : String) : String :=
  if s.data.getLast? = some '\n' then "" else "\n"

/-- The Go call `logger.Printf(format, args...)`: one write to the log file,
made of the header, the formatted message and a final newline. -/
def Logger.Printf (l : Logger) (stamp format : String) (args : List Arg) : String :=
  l.header stamp ++ Sprintf format args ++ lineEnd (Sprintf format args)

/-- customLogger creates a logger function with a configurable log level. -/
def customLogger (tag : String) (file : String) (enableDebug : Bool) : Logger :=
  { tag := tag, file := file, enableDebug := enableDebug }

/-- The body of the function returned by `customLogger`, applied to
`(level, msg, args...)` at wall-clock time `stamp`: the list of writes made to
the log file (none or one). -/
def Logger.call (l : Logger) (stamp level msg : String) (args : List Arg) : List String :=
  if stringsContains msg "no messages received from kafka" || stringsContains msg "topic: "
      || stringsContains msg "partition " then
    []
  else if level = "DEBUG" && !l.enableDebug then
    []
  else
    [l.Printf stamp (Sprintf "%s: %s" [.str level, .str msg]) args]

/-! ## Readers, handlers and engines -/

/-- The value `kafka.LoggerFunc(func(msg, args...) { logger("DEBUG", msg, args...) })`
handed to the reader: it forwards every reader-internal message to `logger` at
the fixed level it captured. -/
structure LoggerFunc where
  level : String
  logger : Logger
  deriving DecidableEq, Repr

/-- A reader-internal log message, forwarded to the captured logger. -/
def LoggerFunc.Printf (f : LoggerFunc) (stamp msg : String) (args : List Arg) : List String :=
  f.logger.call stamp f.level msg args

/-- The fields of `kafka.ReaderConfig` set by `createConsumer`; `MaxWait` is in
milliseconds. -/
structure ReaderConfig where
  Brokers : List String
  Topic : String
  GroupID : String
  MinBytes : Nat
  MaxBytes : Nat
  MaxWait : Nat
  Logger : LoggerFunc
  deriving DecidableEq, Repr

/-- A `*kafka.Reader`: `gen` tells apart the readers one engine constructs one
after the other (0 for the reader built by `NewKafkaConsumer`). -/
structure Reader where
  gen : Nat
  config : ReaderConfig
  deriving DecidableEq, Repr

/-- The check `kafka.NewReader` runs on a configuration before it builds a
reader (`ReaderConfig.Validate` of kafka-go), on the fields modelled here: the
error it reports, if any.  The broker list must not be empty, a topic must be
given, and `MinBytes` must not exceed `MaxBytes`. -/
def ReaderConfig.Validate (config : ReaderConfig) : Option String :=
  if config.Brokers.isEmpty then
    some "cannot create a new kafka reader with an empty list of broker addresses"
  else if config.Topic = "" then
    if config.GroupID = "" then some "cannot create a new kafka reader with an empty topic"
    else some "either Topic or GroupTopics must be specified with GroupID"
  else if config.MaxBytes < config.MinBytes then
    some (Sprintf "minimum batch size greater than the maximum (min = %d, max = %d)"
      [.int (Int.ofNat config.MinBytes), .int (Int.ofNat config.MaxBytes)])
  else none

/-- createConsumer builds the reader configuration and returns
`kafka.NewReader(readerConfig)`, which panics when the configuration does not
pass its check: the result is then the text of the panic.  `gen` is the
identity of the new reader. -/
def createConsumer (brokers : List String) (topic groupID : String) (logger : Logger)
    (gen : Nat) : Except String Reader :=
  let readerConfig : ReaderConfig :=
    { Brokers := brokers
      Topic := topic
      GroupID := groupID
      MinBytes := 1
      MaxBytes := 10000000
      MaxWait := 500
      Logger := { level := "DEBUG", logger := logger } }
  match readerConfig.Validate with
  | some text => .error text
  | none => .ok { gen := gen, config := readerConfig }

/-- The handler functions of `handlers.go`. -/
inductive HandlerFunc where
  | handler1
  | handler2
  deriving DecidableEq, Repr

/-- The registry `handlers` built in `main`: handler names to functions. -/
def handlers (name : String) : Option HandlerFunc :=
  if name = "handler1" then some .handler1
  else if name = "handler2" then some .handler2
  else none

/-- The closure `main` passes to `NewKafkaConsumer` as `handler`: it captures
the handler looked up for the spec and the three environment configurations. -/
structure HandleMessage where
  handlerFunc : HandlerFunc
  redisConfig : RedisConfig
  mongoConfig : MongoConfig
  mysqlConfig : MySQLConfig
  deriving DecidableEq, Repr

/-- KafkaConsumer represents a Kafka consumer with logging and consumption
logic.  `ctx` names the cancellable context created for the engine (`cancel`
cancels that context).  The program makes engines in `NewKafkaConsumer` only,
after `kafka.NewReader` has accepted the brokers and the topic of the spec:
`accepted` records that neither is empty. -/
structure KafkaConsumer where
  reader : Reader
  logger : Logger
  ctx : Nat
  handleMessage : HandleMessage
  consumerConfig : ConsumerConfig
  accepted : consumerConfig.Brokers ≠ [] ∧ consumerConfig.Topic ≠ ""
  deriving DecidableEq, Repr

/-- What the program does, as seen from outside. -/
inductive Event where
  /-- a call of a logger function with `(level, msg, args...)` -/
  | log (logger : Logger) (level msg : String) (args : List Arg)
  /-- text printed on standard output -/
  | print (text : String)
  /-- `NewKafkaConsumer` returned this engine -/
  | newConsumer (kc : KafkaConsumer)
  /-- `Start` launched the consume loop of this engine -/
  | spawn (kc : KafkaConsumer)
  /-- `FetchMessage` was called on this reader -/
  | fetch (r : Reader)
  /-- `Close` was called on this reader -/
  | closeReader (r : Reader)
  /-- `time.Sleep`, in seconds -/
  | sleep (seconds : Nat)
  /-- the consume loop constructed this reader -/
  | newReader (r : Reader)
  /-- a handler function was called with these arguments -/
  | handle (handlerFunc : HandlerFunc) (message : Message) (config : ConsumerConfig)
      (logFunc : Logger) (redisConfig : RedisConfig) (mongoConfig : MongoConfig)
      (mysqlConfig : MySQLConfig)
  /-- `CommitMessages` was called on this reader for this message -/
  | commit (r : Reader) (message : Message)
  /-- the context with this name was cancelled -/
  | cancel (ctx : Nat)
  /-- `main` blocks until SIGINT or SIGTERM arrives -/
  | awaitSignal
  /-- `log.Fatalf`: the text is printed and the process exits -/
  | fatal (text : String)
  /-- a panic that nothing recovers: the text is printed and the process dies -/
  | panic (text : String)
  deriving DecidableEq, Repr

/-- Whether an event is a panic. -/
def Event.isPanic : Event → Bool
  | .panic _ => true
  | _ => false

/-- How a call can end the process: `log.Fatalf` or a panic, with its text. -/
inductive Exit where
  | fatal (text : String)
  | panic (text : String)
  deriving DecidableEq, Repr

/-- The event that records such an end. -/
def Exit.event : Exit → Event
  | .fatal text => .fatal text
  | .panic text => .panic text

/-- The text printed at such an end. -/
def Exit.text : Exit → String
  | .fatal text => text
  | .panic text => text

/-- Calling the closure: `handlerFunc(message, config, logFunc, redisConfig,
mongoConfig, mysqlConfig)`. -/
def HandleMessage.invoke (h : HandleMessage) (message : Message) (config : ConsumerConfig)
    (logFunc : Logger) : Event :=
  .handle h.handlerFunc message config logFunc h.redisConfig h.mongoConfig h.mysqlConfig

/-- NewKafkaConsumer creates a new KafkaConsumer with the given configuration
and handler function.  `openErr path` is the error of opening the log file at
`path`, if any.  A log file that does not open is fatal, and a reader
configuration that `kafka.NewReader` rejects makes `createConsumer` panic: the
result is then the way the process ends. -/
def NewKafkaConsumer (config : ConsumerConfig) (handler : HandleMessage) (ctx : Nat)
    (openErr : String → Option String) : Except Exit KafkaConsumer :=
  match openErr config.LogFile with
  | some err => .error (.fatal (Sprintf "Failed to create log file: %v\n" [.str err]))
  | none =>
    let unifiedLogger := customLogger config.LogPrefix config.LogFile config.DebugMode
    match h : createConsumer config.Brokers config.Topic config.GroupID unifiedLogger 0 with
    | .error text => .error (.panic text)
    | .ok reader =>
      .ok
        { reader := reader
          logger := unifiedLogger
          ctx := ctx
          handleMessage := handler
          consumerConfig := config
          accepted := by
            by_cases hb : config.Brokers = []
            · simp [createConsumer, ReaderConfig.Validate, hb] at h
            · by_cases ht : config.Topic = ""
              · by_cases hg : config.GroupID = "" <;>
                  simp [createConsumer, ReaderConfig.Validate, hb, ht, hg] at h
              · exact ⟨hb, ht⟩ }

/-! ## The consume loop (`Start`) and `Stop` -/

/-- What one call of `FetchMessage` brings: an error, or a message together
with the error (if any) the later `CommitMessages` of that message returns. -/
inductive Fetched where
  | error (err : String)
  | message (m : Message) (commitErr : Option String)
  deriving DecidableEq, Repr

/-- What one turn of the `select` finds: the context is done, or the default
branch runs and fetches. -/
inductive Poll where
  | done
  | fetch (f : Fetched)
  deriving DecidableEq, Repr

/-- The default branch of the `select` in `Start`: one fetch and what follows
it.  Returns the engine (its reader may have been replaced), the new value of
`wasDisconnected`, and the events of this turn; a turn in which
`createConsumer` panics ends with the panic. -/
def KafkaConsumer.iteration (kc : KafkaConsumer) (wasDisconnected : Bool) :
    Fetched → KafkaConsumer × Bool × List Event
  | .error _ =>
    let first : List Event :=
      if !wasDisconnected then
        [.log kc.logger "ERROR"
            "Lost connection to Kafka. Shutting down consumer and retrying in 5 seconds..." [],
          .closeReader kc.reader]
      else []
    match createConsumer kc.consumerConfig.Brokers kc.consumerConfig.Topic
        kc.consumerConfig.GroupID kc.logger (kc.reader.gen + 1) with
    | .error text => (kc, true, [.fetch kc.reader] ++ first ++ [.sleep 5, .panic text])
    | .ok reader =>
      ({ kc with reader := reader }, true,
        [.fetch kc.reader] ++ first ++
          [.sleep 5, .newReader reader,
            .log kc.logger "INFO" "Attempting to reconnect to Kafka..." []])
  | .message message commitErr =>
    let back : List Event :=
      if wasDisconnected then
        [.log kc.logger "INFO" "Reconnected to Kafka successfully. Consumer is ready." []]
      else []
    let committed : List Event :=
      match commitErr with
      | some err => [.log kc.logger "ERROR" "Failed to commit message: %v\n" [.str err]]
      | none => []
    (kc, false,
      [.fetch kc.reader] ++ back ++
        [kc.handleMessage.invoke message kc.consumerConfig kc.logger,
          .commit kc.reader message] ++ committed)

/-- The state of the goroutine of `Start` after some turns of its loop. -/
structure LoopResult where
  kc : KafkaConsumer
  wasDisconnected : Bool
  returned : Bool
  trace : List Event
  deriving DecidableEq, Repr

/-- The `for { select { ... } }` of `Start`, run over the given turns.  The
loop itself never ends; `returned` tells whether the goroutine returned (the
context was done) within these turns.  A turn that panics is the last one:
the process dies. -/
def KafkaConsumer.consume (kc : KafkaConsumer) (wasDisconnected : Bool) :
    List Poll → LoopResult
  | [] => { kc := kc, wasDisconnected := wasDisconnected, returned := false, trace := [] }
  | .done :: _ =>
    { kc := kc, wasDisconnected := wasDisconnected, returned := true,
      trace := [.log kc.logger "WARNING" "Consumer shutdown signal received. Stopping..." []] }
  | .fetch f :: rest =>
    let step := kc.iteration wasDisconnected f
    if step.2.2.any Event.isPanic then
      { kc := step.1, wasDisconnected := step.2.1, returned := false, trace := step.2.2 }
    else
      let later := KafkaConsumer.consume step.1 step.2.1 rest
      { later with trace := step.2.2 ++ later.trace }

/-- Start begins consuming messages from Kafka: what the caller of `Start`
does before it returns. -/
def KafkaConsumer.Start (kc : KafkaConsumer) : List Event :=
  [.log kc.logger "INFO" "Starting Kafka consumer..." [], .spawn kc]

/-- The goroutine launched by `Start`: `var wasDisconnected bool`, then the
loop. -/
def KafkaConsumer.Start.goroutine (kc : KafkaConsumer) (polls : List Poll) : LoopResult :=
  kc.consume false polls

/-- Stop stops the Kafka consumer gracefully; `closeErr` is the error
`kc.reader.Close()` returns, if any. -/
def KafkaConsumer.Stop (kc : KafkaConsumer) (closeErr : Option String) : List Event :=
  [.cancel kc.ctx, .closeReader kc.reader] ++
    (match closeErr with
      | some err => [.log kc.logger "ERROR" "Error closing reader: %v\n" [.str err]]
      | none => []) ++
    [.log kc.logger "INFO" "Kafka consumer has been stopped." []]

/-! ## Environment selection and `main` -/

/-- GetEnvConfig selects the three configurations of one environment; an
unknown name is fatal and the result is the text of the fatal message. -/
def GetEnvConfig (env : String) (config : FullConfig) :
    Except String (RedisConfig × MongoConfig × MySQLConfig) :=
  if env = "production" then
    .ok (config.Redis.Production, config.Mongo.Production, config.MySQL.Production)
  else if env = "staging" then
    .ok (config.Redis.Staging, config.Mongo.Staging, config.MySQL.Staging)
  else if env = "development" then
    .ok (config.Redis.Development, config.Mongo.Development, config.MySQL.Development)
  else
    .error (Sprintf "Unknown environment: %s" [.str env])

/-- The value of `flag.String("env", "development", ...)` after `flag.Parse()`:
the value given on the command line, or the default. -/
def envFlag (given : Option String) : String :=
  given.getD "development"

/-- How the start-up part of `main` ends: the events so far, the engines
appended to `consumers`, and, if the process ended there, the text it ended
with (of a `log.Fatalf` or of a panic). -/
structure Startup where
  trace : List Event
  consumers : List KafkaConsumer
  fatal : Option String
  deriving DecidableEq, Repr

/-- The loop `for _, consumerConfig := range config.KafkaConsumers` of `main`;
`consumers` is the slice built so far. -/
def main.createConsumers (redisConfig : RedisConfig) (mongoConfig : MongoConfig)
    (mysqlConfig : MySQLConfig) (openErr : String → Option String) :
    List ConsumerConfig → List KafkaConsumer → Startup
  | [], consumers => { trace := [], consumers := consumers, fatal := none }
  | consumerConfig :: rest, consumers =>
    match handlers consumerConfig.HandlerName with
    | none =>
      let text := Sprintf "Handler %s not found\n" [.str consumerConfig.HandlerName]
      { trace := [.fatal text], consumers := consumers, fatal := some text }
    | some handlerFunc =>
      match NewKafkaConsumer consumerConfig
          { handlerFunc := handlerFunc, redisConfig := redisConfig,
            mongoConfig := mongoConfig, mysqlConfig := mysqlConfig }
          consumers.length openErr with
      | .error exit => { trace := [exit.event], consumers := consumers, fatal := some exit.text }
      | .ok consumer =>
        let later := main.createConsumers redisConfig mongoConfig mysqlConfig openErr rest
          (consumers ++ [consumer])
        { later with trace := [.newConsumer consumer] ++ consumer.Start ++ later.trace }

/-- The four `fmt.Printf` lines `main` prints for verification. -/
def main.banner (env : String) (redisConfig : RedisConfig) (mongoConfig : MongoConfig)
    (mysqlConfig : MySQLConfig) : List Event :=
  [.print (Sprintf "Using environment: %s\n" [.str env]),
    .print (Sprintf "Redis Config: Host=%s, Port=%d\n"
      [.str redisConfig.Host, .int redisConfig.Port]),
    .print (Sprintf "Mongo Config: Server=%s, Port=%d, User=%s, Database=%s\n"
      [.str mongoConfig.Server, .int mongoConfig.Port, .str mongoConfig.Username,
        .str mongoConfig.Database]),
    .print (Sprintf "MySQL Config: Host=%s, Port=%d, User=%s, Database=%s\n"
      [.str mysqlConfig.Host, .int mysqlConfig.Port, .str mysqlConfig.User,
        .str mysqlConfig.Database])]

/-- The first part of `main`, up to the moment it waits for a signal.
`given` is the `-env` value of the command line, `file` what `ReadConfig`
returned for `config.json`. -/
def main.startup (given : Option String) (file : Except String FullConfig)
    (openErr : String → Option String) : Startup :=
  let env := envFlag given
  match file with
  | .error err =>
    let text := Sprintf "Failed to load configuration: %v\n" [.str err]
    { trace := [.fatal text], consumers := [], fatal := some text }
  | .ok config =>
    match GetEnvConfig env config with
    | .error text => { trace := [.fatal text], consumers := [], fatal := some text }
    | .ok (redisConfig, mongoConfig, mysqlConfig) =>
      let made := main.createConsumers redisConfig mongoConfig mysqlConfig openErr
        config.KafkaConsumers []
      { made with trace := main.banner env redisConfig mongoConfig mysqlConfig ++ made.trace }

/-- The loop `for _, consumer := range consumers` that `main` runs once the
signal has arrived; `closeErr r` is the error closing reader `r` returns. -/
def main.shutdown (closeErr : Reader → Option String) : List KafkaConsumer → List Event
  | [] => []
  | consumer :: rest =>
    [.log consumer.logger "INFO" "Received termination signal. Shutting down..." []] ++
      consumer.Stop (closeErr consumer.reader) ++ main.shutdown closeErr rest

/-- The whole of `main` when the signal arrives.  The engines in `consumers`
are shared with their goroutines, which replace `reader` on reconnect:
`readerNow ctx` is the reader the engine of context `ctx` holds at that
moment. -/
def main (given : Option String) (file : Except String FullConfig)
    (openErr : String → Option String) (readerNow : Nat → Reader)
    (closeErr : Reader → Option String) : List Event :=
  let started := main.startup given file openErr
  match started.fatal with
  | some _ => started.trace
  | none =>
    started.trace ++ [.awaitSignal] ++
      main.shutdown closeErr
        (started.consumers.map fun consumer => { consumer with reader := readerNow consumer.ctx })

/-! ## The handlers (`handlers.go`) -/

/-- A decoded JSON value of a message payload, as `json.Unmarshal` stores it
in an `interface{}`; a number keeps its JSON text. -/
inductive Json where
  | null
  | bool (b : Bool)
  | num (literal : String)
  | str (s : String)
  | arr (items : List Json)
  | obj (fields : List (String × Json))

/-- What the handlers get from the Go standard library and the model does not
compute: the result of `json.Unmarshal(message.Value, &data)`, the `%+v` text
of the settings mapping, the `%s` text of a value looked up in the decoded
payload (`none` when the key is absent), and `string(message.Value)`. -/
structure GoLib where
  unmarshal : List Nat → Except String (List (String × Json))
  showSettings : List (String × Setting) → String
  showValue : Option Json → String
  showBytes : List Nat → String

/-- The elements of `motos` that are strings, in order. -/
def motoStrings : List Json → List String
  | [] => []
  | .str motoStr :: rest => motoStr :: motoStrings rest
  | _ :: rest => motoStrings rest

/-- The handler function `handler1`: the logger calls and prints it makes, in
order. -/
def handler1 (lib : GoLib) (message : Message) (config : ConsumerConfig) (logFunc : Logger)
    (_redisConfig : RedisConfig) (_mongoConfig : MongoConfig) (_mysqlConfig : MySQLConfig) :
    List Event :=
  [.log logFunc "INFO" "Handler1 processing message with topic: %s" [.str config.Topic],
    .log logFunc "DEBUG" "Handler1 processing message with settings: %+v"
      [.str (lib.showSettings config.Settings)]] ++
    match lib.unmarshal message.Value with
    | .error err => [.log logFunc "ERROR" "Failed to unmarshal message: %v" [.str err]]
    | .ok data =>
      (match data.lookup "name" with
        | some (.str name) =>
          if name = "" then
            [.log logFunc "WARNING" "Message has an empty \x27name\x27 field" []]
          else []
        | _ => []) ++
      (match data.lookup "army" with
        | some (.obj army) =>
          match army.lookup "motos" with
          | some (.arr motos) => [.print ("[" ++ " ".intercalate (motoStrings motos) ++ "]\n")]
          | _ => []
        | _ => []) ++
      (match config.Settings.lookup "mappings" with
        | some (.object mappings) =>
          (match mappings.lookup "code" with
            | some (.str code) => [.log logFunc "INFO" "Using code mapping: %s" [.str code]]
            | _ => []) ++
          (match mappings.lookup "replacewith" with
            | some (.str replaceWith) =>
              [.log logFunc "INFO" "Replace code with: %s" [.str replaceWith]]
            | _ => [])
        | _ => []) ++
      [.print (Sprintf "Consumer - %s: %s\n"
          [.str (lib.showValue (data.lookup "name")),
            .str (lib.showValue (data.lookup "description"))]),
        .log logFunc "INFO" "Successfully processed message from topic: %s" [.str config.Topic]]

/-- The handler function `handler2`: the logger calls and prints it makes, in
order. -/
def handler2 (lib : GoLib) (message : Message) (config : ConsumerConfig) (logFunc : Logger)
    (redisConfig : RedisConfig) (mongoConfig : MongoConfig) (mysqlConfig : MySQLConfig) :
    List Event :=
  [.log logFunc "INFO" "Handler2 processing message with topic: %s" [.str config.Topic],
    .log logFunc "INFO" "Redis Host: %s, Port: %d" [.str redisConfig.Host, .int redisConfig.Port],
    .log logFunc "INFO" "Mongo Server: %s, Port: %d"
      [.str mongoConfig.Server, .int mongoConfig.Port],
    .log logFunc "INFO" "MySQL Host: %s, Port: %d" [.str mysqlConfig.Host, .int mysqlConfig.Port],
    .print (Sprintf "Consumer received message: %s\n" [.str (lib.showBytes message.Value)])]

/-- Running the function a registry entry stands for. -/
def HandlerFunc.run (lib : GoLib) : HandlerFunc → Message → ConsumerConfig → Logger →
    RedisConfig → MongoConfig → MySQLConfig → List Event
  | .handler1 => Multiconsumer.handler1 lib
  | .handler2 => Multiconsumer.handler2 lib

/-- The writes a sequence of events makes to log files, all stamped `stamp`:
every logger call in it, passed through the function `customLogger`
returned. -/
def sink (stamp : String) : List Event → List String
  | [] => []
  | .log logger level msg args :: rest => logger.call stamp level msg args ++ sink stamp rest
  | _ :: rest => sink stamp rest

/-! ## Vocabulary of the statements -/

/-- The two notices of the reconnect protocol. -/
inductive Notice where
  | lost
  | reconnected
  deriving DecidableEq, Repr

/-- Which of the two notices a logger call is, if any. -/
def Event.notice : Event → Option Notice
  | .log _ level msg _ =>
    if level = "ERROR" ∧
        msg = "Lost connection to Kafka. Shutting down consumer and retrying in 5 seconds..." then
      some .lost
    else if level = "INFO" ∧ msg = "Reconnected to Kafka successfully. Consumer is ready." then
      some .reconnected
    else none
  | _ => none

/-- A trace restricted to the two notices. -/
def notices (trace : List Event) : List Notice :=
  trace.filterMap Event.notice

/-- Strict alternation of the two notices; `expectLost` tells which one must
come next. -/
def alternating : Bool → List Notice → Bool
  | _, [] => true
  | true, .lost :: rest => alternating false rest
  | false, .reconnected :: rest => alternating true rest
  | _, _ => false

/-- Whether a fetch outcome is a failure. -/
def Fetched.failed : Fetched → Bool
  | .error _ => true
  | .message _ _ => false

/-- Whether a sequence of outcomes ends inside a run of failures. -/
def endsInFailure (outcomes : List Fetched) : Bool :=
  match outcomes.getLast? with
  | some f => f.failed
  | none => false

/-- The notices of the goroutine of `Start` fed with the given outcomes. -/
def noticesOf (kc : KafkaConsumer) (outcomes : List Fetched) : List Notice :=
  notices (KafkaConsumer.Start.goroutine kc (outcomes.map Poll.fetch)).trace

/-- A message template is clean when it holds none of the suppressed
phrases. -/
def cleanTemplate (msg : String) : Bool :=
  suppressedPhrases.all fun p => !stringsContains msg p

/-- Whether a format has simple directives only, read from a position that
is inside a directive (`inVerb`) or not: after a `%` and any `+` flags comes a
character that starts neither a width, a precision, an argument index nor
another flag. -/
def simpleDirectivesFrom : Bool → List Char → Bool
  | _, [] => true
  | false, c :: rest => simpleDirectivesFrom (c = '%') rest
  | true, c :: rest =>
    if c = '+' then simpleDirectivesFrom true rest
    else
      !(c = '#' || c = '-' || c = ' ' || c = '.' || c = '*' || c = '[' || c.isDigit) &&
        simpleDirectivesFrom false rest

/-- Whether a format has simple directives only.  On such a format, with no
operand, `doPrintf` prints what `fmt` prints: the literal text, `%` for `%%`,
`%!(NOVERB)` for a `%` at the end and `%!verb(MISSING)` for any other
directive. -/
def simpleDirectives (format : String) : Bool :=
  simpleDirectivesFrom false format.data

/-- Whether `line` begins with `start`. -/
def startsWith (line start : String) : Bool :=
  hasLeading start.data line.data

/-- One call of a logger function, with the wall-clock stamp it is made at. -/
structure LogCall where
  stamp : String
  level : String
  msg : String
  args : List Arg
  deriving DecidableEq, Repr

/-- The writes a sequence of calls of one logger function makes. -/
def Logger.run (l : Logger) : List LogCall → List String
  | [] => []
  | c :: rest => l.call c.stamp c.level c.msg c.args ++ l.run rest

/-- The four severity levels of the logging contract. -/
def standardLevels : List String :=
  ["DEBUG", "INFO", "WARNING", "ERROR"]

/-- The engine a `spawn` event starts, if the event is one. -/
def Event.spawned : Event → Option KafkaConsumer
  | .spawn kc => some kc
  | _ => none

/-- The engine a `newConsumer` event constructs, if the event is one. -/
def Event.constructed : Event → Option KafkaConsumer
  | .newConsumer kc => some kc
  | _ => none

/-- Whether an event is a call of a handler function. -/
def Event.isHandle : Event → Bool
  | .handle _ _ _ _ _ _ _ => true
  | _ => false

/-- Engine `kc` is bound to `spec`: it stores `spec`, logs through the logger
made for `spec`, reads the topic of `spec` with the group of `spec` from the
brokers of `spec`, and calling its `handleMessage` calls the registry entry
for the handler name of `spec` with the message, `spec`, the logger of the
engine and the three given environment configurations. -/
def BoundTo (redisConfig : RedisConfig) (mongoConfig : MongoConfig) (mysqlConfig : MySQLConfig)
    (spec : ConsumerConfig) (kc : KafkaConsumer) : Prop :=
  kc.consumerConfig = spec ∧
  kc.logger = customLogger spec.LogPrefix spec.LogFile spec.DebugMode ∧
  kc.reader.config.Brokers = spec.Brokers ∧
  kc.reader.config.Topic = spec.Topic ∧
  kc.reader.config.GroupID = spec.GroupID ∧
  ∃ handlerFunc, handlers spec.HandlerName = some handlerFunc ∧
    ∀ message, kc.handleMessage.invoke message kc.consumerConfig kc.logger =
      .handle handlerFunc message spec kc.logger redisConfig mongoConfig mysqlConfig

/-- The reader `createConsumer` returns when `kafka.NewReader` accepts the
configuration. -/
def acceptedReader (brokers : List String) (topic groupID : String) (logger : Logger)
    (gen : Nat) : Reader :=
  { gen := gen
    config :=
      { Brokers := brokers, Topic := topic, GroupID := groupID, MinBytes := 1,
        MaxBytes := 10000000, MaxWait := 500,
        Logger := { level := "DEBUG", logger := logger } } }

/-- The engine `NewKafkaConsumer` returns when the log file opens and
`kafka.NewReader` accepts the brokers and the topic. -/
def newEngine (config : ConsumerConfig) (handler : HandleMessage) (ctx : Nat)
    (h : config.Brokers ≠ [] ∧ config.Topic ≠ "") : KafkaConsumer :=
  { reader := acceptedReader config.Brokers config.Topic config.GroupID
      (customLogger config.LogPrefix config.LogFile config.DebugMode) 0
    logger := customLogger config.LogPrefix config.LogFile config.DebugMode
    ctx := ctx
    handleMessage := handler
    consumerConfig := config
    accepted := h }

/-- A configuration with the given consumer specs and fixed store settings. -/
def sampleConfig (consumers : List ConsumerConfig) : FullConfig :=
  { Redis :=
      { Production := ⟨"redis.prod", 6379⟩
        Development := ⟨"localhost", 6379⟩
        Staging := ⟨"redis.stage", 6380⟩ }
    Mongo :=
      { Production := ⟨"mongo.prod", 27017, "app", "s3cret", "main"⟩
        Development := ⟨"localhost", 27017, "dev", "dev", "main"⟩
        Staging := ⟨"mongo.stage", 27018, "app", "stage", "main"⟩ }
    MySQL :=
      { Production := ⟨"mysql.prod", 3306, "app", "s3cret", "main"⟩
        Development := ⟨"localhost", 3306, "dev", "dev", "main"⟩
        Staging := ⟨"mysql.stage", 3307, "app", "stage", "main"⟩ }
    KafkaConsumers := consumers }

/-- A spec for `topicA`, handled by `handler1`. -/
def specA : ConsumerConfig :=
  { Brokers := ["localhost:9092"], Topic := "topicA", GroupID := "groupA", LogFile := "a.log",
    LogPrefix := "A", DebugMode := false, Settings := [], HandlerName := "handler1" }

/-- A spec for `topicB`, handled by `handler2`. -/
def specB : ConsumerConfig :=
  { Brokers := ["localhost:9092"], Topic := "topicB", GroupID := "groupB", LogFile := "b.log",
    LogPrefix := "B", DebugMode := true, Settings := [], HandlerName := "handler2" }

/-- A spec whose handler name is not in the registry. -/
def specUnknown : ConsumerConfig :=
  { specB with HandlerName := "handler9" }

/-- A spec whose `log_file` is left empty. -/
def specNoLog : ConsumerConfig :=
  { specA with LogFile := "" }

/-- A spec whose broker list is empty. -/
def specNoBrokers : ConsumerConfig :=
  { specA with Brokers := [] }

/-- A file system in which every path but the empty one can be opened. -/
def openNonEmpty (path : String) : Option String :=
  if path = "" then some "open : no such file or directory" else none

/-- What the loop does with a fetched message: hand it to the handler, commit
its offset. -/
inductive Delivery where
  | handled (message : Message)
  | committed (message : Message)
  deriving DecidableEq, Repr

/-- The delivery step an event is, if any. -/
def Event.delivery : Event → Option Delivery
  | .handle _ message _ _ _ _ _ => some (.handled message)
  | .commit _ message => some (.committed message)
  | _ => none

/-- The delivery steps a fetch outcome calls for. -/
def Fetched.deliveries : Fetched → List Delivery
  | .message m _ => [.handled m, .committed m]
  | .error _ => []

/-- The error text of a "Failed to commit message" ERROR call, if the event is
one. -/
def Event.commitFailure : Event → Option String
  | .log _ level msg [.str err] =>
    if level = "ERROR" ∧ msg = "Failed to commit message: %v\n" then some err else none
  | _ => none

/-- The commit error a fetch outcome carries, if any. -/
def Fetched.commitErr : Fetched → Option String
  | .message _ c => c
  | .error _ => none

/-- The same fetch outcome with a commit that succeeds. -/
def Fetched.committed : Fetched → Fetched
  | .message m _ => .message m none
  | .error err => .error err

/-- Whether an event is a step of the retry cycle: a fetch, a sleep, or the
construction of a reader. -/
def Event.isRetryStep : Event → Bool
  | .fetch _ => true
  | .sleep _ => true
  | .newReader _ => true
  | _ => false

/-- The reader an engine holds after `i` reconnects: its present reader for
`i = 0`, otherwise the `i`-th reader constructed after it, from the brokers,
topic and group of the stored spec and the logger of the engine. -/
def KafkaConsumer.readerAfter (kc : KafkaConsumer) (i : Nat) : Reader :=
  if i = 0 then kc.reader
  else acceptedReader kc.consumerConfig.Brokers kc.consumerConfig.Topic
    kc.consumerConfig.GroupID kc.logger (kc.reader.gen + i)

/-- The readers that are open after a sequence of events, given those open
before it: a constructed reader is added, a closed one is removed. -/
def openReaders : List Reader → List Event → List Reader
  | opened, [] => opened
  | opened, .newReader r :: rest => openReaders (opened ++ [r]) rest
  | opened, .closeReader r :: rest => openReaders (opened.filter fun x => decide (x ≠ r)) rest
  | opened, _ :: rest => openReaders opened rest

/-- The reader a `closeReader` event closes, if the event is one. -/
def Event.closed : Event → Option Reader
  | .closeReader r => some r
  | _ => none

/-- A library whose payload decodes to a country record. -/
def sampleLib : GoLib :=
  { unmarshal := fun _ => .ok [("name", .str "Greece"), ("description", .str "A country")]
    showSettings := fun _ => "map[]"
    showValue := fun v =>
      match v with
      | some (.str s) => s
      | _ => "%!s(<nil>)"
    showBytes := fun _ => "payload" }

/-! ## Readers: what `kafka.NewReader` accepts -/

theorem createConsumer_accepted (brokers : List String) (topic groupID : String)
    (logger : Logger) (gen : Nat) (h : brokers ≠ [] ∧ topic ≠ "") :
    createConsumer brokers topic groupID logger gen =
      .ok (acceptedReader brokers topic groupID logger gen) := by
  simp [createConsumer, ReaderConfig.Validate, h.1, h.2, acceptedReader]

theorem createConsumer_engine (kc : KafkaConsumer) (gen : Nat) :
    createConsumer kc.consumerConfig.Brokers kc.consumerConfig.Topic kc.consumerConfig.GroupID
        kc.logger gen =
      .ok (acceptedReader kc.consumerConfig.Brokers kc.consumerConfig.Topic
        kc.consumerConfig.GroupID kc.logger gen) :=
  createConsumer_accepted _ _ _ _ _ kc.accepted

theorem createConsumer_rejected (brokers : List String) (topic groupID : String)
    (logger : Logger) (gen : Nat) (h : brokers = [] ∨ topic = "") :
    ∃ text, createConsumer brokers topic groupID logger gen = .error text := by
  cases hc : createConsumer brokers topic groupID logger gen with
  | error text => exact ⟨text, rfl⟩
  | ok reader =>
    by_cases hb : brokers = []
    · simp [createConsumer, ReaderConfig.Validate, hb] at hc
    · have ht : topic = "" := h.resolve_left hb
      by_cases hg : groupID = "" <;>
        simp [createConsumer, ReaderConfig.Validate, hb, ht, hg] at hc

theorem NewKafkaConsumer_opened (config : ConsumerConfig) (handler : HandleMessage) (ctx : Nat)
    (openErr : String → Option String) (h : openErr config.LogFile = none)
    (hv : config.Brokers ≠ [] ∧ config.Topic ≠ "") :
    NewKafkaConsumer config handler ctx openErr = .ok (newEngine config handler ctx hv) := by
  unfold NewKafkaConsumer
  simp only [h]
  split
  · next text hc => rw [createConsumer_accepted _ _ _ _ _ hv] at hc; cases hc
  · next reader hc =>
    rw [createConsumer_accepted _ _ _ _ _ hv] at hc
    cases hc
    rfl

theorem NewKafkaConsumer_rejected (config : ConsumerConfig) (handler : HandleMessage)
    (ctx : Nat) (openErr : String → Option String) (h : openErr config.LogFile = none)
    (hr : config.Brokers = [] ∨ config.Topic = "") :
    ∃ text, NewKafkaConsumer config handler ctx openErr = .error (.panic text) := by
  obtain ⟨text, ht⟩ := createConsumer_rejected config.Brokers config.Topic config.GroupID
    (customLogger config.LogPrefix config.LogFile config.DebugMode) 0 hr
  refine ⟨text, ?_⟩
  unfold NewKafkaConsumer
  simp only [h]
  split
  · next text2 hc => rw [ht] at hc; cases hc; rfl
  · next reader hc => rw [ht] at hc; cases hc

theorem NewKafkaConsumer_ok (config : ConsumerConfig) (handler : HandleMessage) (ctx : Nat)
    (openErr : String → Option String) (kc : KafkaConsumer)
    (h : NewKafkaConsumer config handler ctx openErr = .ok kc) :
    openErr config.LogFile = none ∧ ∃ hv, kc = newEngine config handler ctx hv := by
  cases ho : openErr config.LogFile with
  | some err => simp [NewKafkaConsumer, ho] at h
  | none =>
    refine ⟨rfl, ?_⟩
    by_cases hv : config.Brokers ≠ [] ∧ config.Topic ≠ ""
    · rw [NewKafkaConsumer_opened config handler ctx openErr ho hv] at h
      exact ⟨hv, (Except.ok.inj h).symm⟩
    · have hr : config.Brokers = [] ∨ config.Topic = "" := by
        by_cases hb : config.Brokers = []
        · exact Or.inl hb
        · exact Or.inr (by_contra fun ht => hv ⟨hb, ht⟩)
      obtain ⟨text, ht⟩ := NewKafkaConsumer_rejected config handler ctx openErr ho hr
      rw [ht] at h
      cases h

theorem iteration_error (kc : KafkaConsumer) (w : Bool) (err : String) :
    kc.iteration w (.error err) =
      ({ kc with reader := kc.readerAfter 1 }, true,
        [.fetch kc.reader] ++
          (if !w then
            [.log kc.logger "ERROR"
                "Lost connection to Kafka. Shutting down consumer and retrying in 5 seconds..."
                [],
              .closeReader kc.reader]
          else []) ++
          [.sleep 5, .newReader (kc.readerAfter 1),
            .log kc.logger "INFO" "Attempting to reconnect to Kafka..." []]) := by
  simp only [KafkaConsumer.iteration, createConsumer_engine, KafkaConsumer.readerAfter]
  rfl

theorem iteration_no_panic (kc : KafkaConsumer) (w : Bool) (f : Fetched) :
    (kc.iteration w f).2.2.any Event.isPanic = false := by
  cases f with
  | error err => rw [iteration_error]; cases w <;> simp [Event.isPanic]
  | message m c =>
    cases w <;> cases c <;>
      simp [KafkaConsumer.iteration, Event.isPanic, HandleMessage.invoke]

/-! ## The consume loop: notices of the reconnect protocol -/

theorem iteration_wasDisconnected (kc : KafkaConsumer) (w : Bool) (o : Fetched) :
    (kc.iteration w o).2.1 = o.failed := by
  cases o with
  | error err => rw [iteration_error]; rfl
  | message m c => rfl

theorem iteration_notices (kc : KafkaConsumer) (w : Bool) (o : Fetched) :
    notices (kc.iteration w o).2.2 =
      (if o.failed && !w then [Notice.lost]
        else if !o.failed && w then [Notice.reconnected] else []) := by
  cases o with
  | error e =>
    rw [iteration_error]
    cases w <;> simp [notices, Event.notice, Fetched.failed]
  | message m c =>
    cases w <;> cases c <;>
      simp [KafkaConsumer.iteration, notices, Event.notice, Fetched.failed, HandleMessage.invoke]

theorem consume_fetch_cons (kc : KafkaConsumer) (w : Bool) (f : Fetched) (rest : List Poll) :
    kc.consume w (Poll.fetch f :: rest) =
      { (kc.iteration w f).1.consume (kc.iteration w f).2.1 rest with
        trace := (kc.iteration w f).2.2 ++
          ((kc.iteration w f).1.consume (kc.iteration w f).2.1 rest).trace } := by
  simp only [KafkaConsumer.consume, iteration_no_panic]
  rfl

theorem consume_append_trace (kc : KafkaConsumer) (w : Bool) (pre : List Fetched)
    (rest : List Poll) :
    (kc.consume w (pre.map Poll.fetch ++ rest)).trace =
      (kc.consume w (pre.map Poll.fetch)).trace ++
        ((kc.consume w (pre.map Poll.fetch)).kc.consume
          (kc.consume w (pre.map Poll.fetch)).wasDisconnected rest).trace := by
  induction pre generalizing kc w with
  | nil => simp [KafkaConsumer.consume]
  | cons f pre ih =>
    rw [List.map_cons, List.cons_append, consume_fetch_cons, consume_fetch_cons]
    simp only [ih, List.append_assoc]

theorem consume_wasDisconnected (kc : KafkaConsumer) (w : Bool) (pre : List Fetched) :
    (kc.consume w (pre.map Poll.fetch)).wasDisconnected =
      (match pre.getLast? with
        | some f => f.failed
        | none => w) := by
  induction pre generalizing kc w with
  | nil => simp [KafkaConsumer.consume]
  | cons f pre ih =>
    rw [List.map_cons, consume_fetch_cons]
    simp only [ih]
    cases pre with
    | nil => simp [iteration_wasDisconnected]
    | cons g pre =>
      cases hl : (g :: pre).getLast? with
      | none => simp at hl
      | some x => simp [List.getLast?_cons_cons, hl]

theorem noticesOf_concat (kc : KafkaConsumer) (pre : List Fetched) (o : Fetched) :
    noticesOf kc (pre ++ [o]) = noticesOf kc pre ++
      (if o.failed && !endsInFailure pre then [Notice.lost]
        else if !o.failed && endsInFailure pre then [Notice.reconnected] else []) := by
  unfold noticesOf KafkaConsumer.Start.goroutine
  rw [List.map_append, consume_append_trace]
  simp only [List.map_cons, List.map_nil, consume_fetch_cons]
  simp only [KafkaConsumer.consume, List.append_nil]
  rw [notices, List.filterMap_append]
  congr 1
  have hw : (kc.consume false (pre.map Poll.fetch)).wasDisconnected = endsInFailure pre := by
    rw [consume_wasDisconnected]
    rfl
  rw [hw]
  exact iteration_notices _ _ o

theorem consume_alternating (kc : KafkaConsumer) (w : Bool) (outcomes : List Fetched) :
    alternating (!w) (notices (kc.consume w (outcomes.map Poll.fetch)).trace) = true := by
  induction outcomes generalizing kc w with
  | nil => simp [KafkaConsumer.consume, notices, alternating]
  | cons f rest ih =>
    rw [List.map_cons, consume_fetch_cons]
    have h := ih (kc.iteration w f).1 (kc.iteration w f).2.1
    rw [iteration_wasDisconnected] at h ⊢
    simp only [notices, List.filterMap_append] at h ⊢
    have hn := iteration_notices kc w f
    simp only [notices] at hn
    rw [hn]
    cases hf : f.failed <;> cases w <;> simp [hf, alternating] at h ⊢ <;> exact h

theorem sprintf_level_msg (level msg : String) :
    Sprintf "%s: %s" [.str level, .str msg] = level ++ ": " ++ msg := by
  have h : "%s: %s".data = ['%', 's', ':', ' ', '%', 's'] := rfl
  simp [Sprintf, h, doPrintf, printArg, extraArgs, String.ext_iff]

theorem call_lost (l : Logger) (stamp : String) :
    l.call stamp "ERROR"
        "Lost connection to Kafka. Shutting down consumer and retrying in 5 seconds..." [] =
      [l.header stamp ++
        "ERROR: Lost connection to Kafka. Shutting down consumer and retrying in 5 seconds...\n"] := by
  have h : l.call stamp "ERROR"
      "Lost connection to Kafka. Shutting down consumer and retrying in 5 seconds..." [] =
      [l.header stamp ++
        "ERROR: Lost connection to Kafka. Shutting down consumer and retrying in 5 seconds..."
        ++ "\n"] := rfl
  rw [h, String.append_assoc]
  rfl

theorem call_reconnected (l : Logger) (stamp : String) :
    l.call stamp "INFO" "Reconnected to Kafka successfully. Consumer is ready." [] =
      [l.header stamp ++ "INFO: Reconnected to Kafka successfully. Consumer is ready.\n"] := by
  have h : l.call stamp "INFO" "Reconnected to Kafka successfully. Consumer is ready." [] =
      [l.header stamp ++ "INFO: Reconnected to Kafka successfully. Consumer is ready."
        ++ "\n"] := rfl
  rw [h, String.append_assoc]
  rfl

/-- C1: whatever fetch outcomes the goroutine of `Start` meets, its logger
calls, restricted to the "Lost connection to Kafka..." ERROR and the
"Reconnected to Kafka successfully..." INFO, strictly alternate starting with
the ERROR; the turn for the next outcome `o` adds exactly one ERROR when `o`
is the first failure of a run (the outcomes so far do not end in a failure),
exactly one INFO when `o` is the first success after a run of failures, and
neither otherwise; and each of the two calls writes exactly one line to the
log file, whatever the debug flag. -/
theorem start_notices_alternate (kc : KafkaConsumer) (outcomes : List Fetched) (o : Fetched)
    (stamp : String) :
    alternating true (noticesOf kc outcomes) = true ∧
    noticesOf kc (outcomes ++ [o]) = noticesOf kc outcomes ++
      (if o.failed && !endsInFailure outcomes then [Notice.lost]
        else if !o.failed && endsInFailure outcomes then [Notice.reconnected] else []) ∧
    kc.logger.call stamp "ERROR"
        "Lost connection to Kafka. Shutting down consumer and retrying in 5 seconds..." [] =
      [kc.logger.header stamp ++
        "ERROR: Lost connection to Kafka. Shutting down consumer and retrying in 5 seconds...\n"] ∧
    kc.logger.call stamp "INFO" "Reconnected to Kafka successfully. Consumer is ready." [] =
      [kc.logger.header stamp ++
        "INFO: Reconnected to Kafka successfully. Consumer is ready.\n"] :=
  ⟨consume_alternating kc false outcomes, noticesOf_concat kc outcomes o,
    call_lost kc.logger stamp, call_reconnected kc.logger stamp⟩

/-! ## The logger: denylist and debug gate -/

theorem cleanTemplate_iff (msg : String) :
    cleanTemplate msg = true ↔
      (stringsContains msg "no messages received from kafka" = false ∧
        stringsContains msg "topic: " = false ∧ stringsContains msg "partition " = false) := by
  simp [cleanTemplate, suppressedPhrases]

theorem call_suppressed (l : Logger) (stamp level msg : String) (args : List Arg)
    (h : cleanTemplate msg = false) : l.call stamp level msg args = [] := by
  have h' : ¬ (stringsContains msg "no messages received from kafka" = false ∧
        stringsContains msg "topic: " = false ∧ stringsContains msg "partition " = false) := by
    rw [← cleanTemplate_iff]; simp [h]
  unfold Logger.call
  rw [if_pos]
  by_contra hc
  apply h'
  simp only [Bool.or_eq_true, not_or, Bool.not_eq_true] at hc
  exact ⟨hc.1.1, hc.1.2, hc.2⟩

theorem call_clean (l : Logger) (stamp level msg : String) (args : List Arg)
    (h : cleanTemplate msg = true) :
    l.call stamp level msg args =
      if level = "DEBUG" ∧ l.enableDebug = false then []
      else [l.Printf stamp (level ++ ": " ++ msg) args] := by
  rw [cleanTemplate_iff] at h
  unfold Logger.call
  rw [if_neg (by simp [h.1, h.2.1, h.2.2]), sprintf_level_msg]
  by_cases hl : level = "DEBUG" <;> cases hd : l.enableDebug <;> simp [hl, hd]

theorem doPrintf_literal (pre rest : List Char) (args : List Arg) (h : '%' ∉ pre) :
    doPrintf none (pre ++ rest) args = pre ++ doPrintf none rest args := by
  induction pre with
  | nil => rfl
  | cons c pre ih =>
    have hc : c ≠ '%' := fun e => h (by simp [e])
    have hp : '%' ∉ pre := fun e => h (by simp [e])
    simp [doPrintf, hc, ih hp]

theorem hasLeading_append (a b : List Char) : hasLeading a (a ++ b) = true := by
  induction a with
  | nil => rfl
  | cons c a ih => simp [hasLeading, ih]

theorem printf_startsWith (l : Logger) (stamp level msg : String) (args : List Arg)
    (h : '%' ∉ level.data) :
    startsWith (l.Printf stamp (level ++ ": " ++ msg) args) (l.header stamp ++ level ++ ": ")
      = true := by
  have hp : '%' ∉ level.data ++ ": ".data := by
    simp only [List.mem_append, not_or]
    exact ⟨h, by decide⟩
  unfold startsWith Logger.Printf Sprintf
  simp only [String.data_append, List.append_assoc]
  rw [← List.append_assoc level.data, doPrintf_literal _ _ _ hp]
  generalize (lineEnd _).data = tail
  have e : (l.header stamp).data ++ (level.data ++ ": ".data ++ doPrintf none msg.data args ++ tail)
      = ((l.header stamp).data ++ (level.data ++ ": ".data)) ++
        (doPrintf none msg.data args ++ tail) := by
    simp only [List.append_assoc]
  rw [e]
  exact hasLeading_append _ _

theorem run_debug_off (tag file : String) (calls : List LogCall) :
    (customLogger tag file false).run calls =
      (customLogger tag file true).run (calls.filter fun c => decide (c.level ≠ "DEBUG")) := by
  induction calls with
  | nil => rfl
  | cons c rest ih =>
    by_cases hl : c.level = "DEBUG"
    · simp only [Logger.run, List.filter, hl, ne_eq, not_true_eq_false, decide_False]
      rw [← ih]
      simp [Logger.call, customLogger]
    · simp only [Logger.run, List.filter, hl, ne_eq, not_false_eq_true, decide_True]
      rw [← ih]
      simp [Logger.call, customLogger, hl, Logger.Printf, Logger.header]


theorem containsChars_cons (p s : List Char) (c : Char) (h : containsChars p s = true) :
    containsChars p (c :: s) = true := by
  simp [containsChars, h]

theorem containsChars_of_hasLeading (p s : List Char) (h : hasLeading p s = true) :
    containsChars p s = true := by
  cases s with
  | nil => cases p with
    | nil => rfl
    | cons a p => simp [hasLeading] at h
  | cons c s => simp [containsChars, h]

theorem containsChars_peel (a c : Char) (q s : List Char) (ha : a.isLower = true)
    (hc : c.isLower = false) :
    containsChars (a :: q) (c :: s) = containsChars (a :: q) s := by
  have hne : a ≠ c := fun e => by rw [e, hc] at ha; exact Bool.noConfusion ha
  simp [containsChars, hasLeading, hne]

theorem containsChars_peel_all (a : Char) (q chunk s : List Char) (ha : a.isLower = true)
    (hc : ∀ c ∈ chunk, c.isLower = false) :
    containsChars (a :: q) (chunk ++ s) = containsChars (a :: q) s := by
  induction chunk with
  | nil => rfl
  | cons c chunk ih =>
    rw [List.cons_append, containsChars_peel a c q _ ha (hc c (by simp))]
    exact ih fun d hd => hc d (by simp [hd])

theorem containsChars_verb (a b c : Char) (tl s : List Char) (hb : b ≠ '(') :
    containsChars (a :: b :: tl) (c :: '(' :: s) = containsChars (a :: b :: tl) ('(' :: s) := by
  simp [containsChars, hasLeading, hb]

theorem doPrintf_verb_head (plus : Bool) (t : List Char) :
    ∃ tl, doPrintf (some plus) t [] = '%' :: tl := by
  induction t generalizing plus with
  | nil => exact ⟨_, rfl⟩
  | cons c r ih =>
    by_cases h1 : c = '+'
    · obtain ⟨tl, e⟩ := ih true
      exact ⟨tl, by simp [doPrintf, h1, e]⟩
    · by_cases h2 : c = '%'
      · exact ⟨_, by simp [doPrintf, h2]; rfl⟩
      · exact ⟨_, by simp [doPrintf, h1, h2]; rfl⟩

theorem hasLeading_doPrintf (q t : List Char) (hq : '%' ∉ q)
    (h : hasLeading q (doPrintf none t []) = true) : hasLeading q t = true := by
  induction t generalizing q with
  | nil =>
    cases q with
    | nil => rfl
    | cons a q => simp [doPrintf, extraArgs, hasLeading] at h
  | cons c r ih =>
    cases q with
    | nil => rfl
    | cons a q =>
      by_cases hc : c = '%'
      · obtain ⟨tl, e⟩ := doPrintf_verb_head false r
        simp only [doPrintf, hc, if_true, e, hasLeading, Bool.and_eq_true, decide_eq_true_eq] at h
        exact absurd h.1 (fun e => hq (by simp [e]))
      · simp only [doPrintf, hc, if_false, hasLeading, Bool.and_eq_true, decide_eq_true_eq] at h
        simp only [hasLeading, Bool.and_eq_true, decide_eq_true_eq]
        exact ⟨h.1, ih q (fun e => hq (by simp [e])) h.2⟩

theorem containsChars_doPrintf (a b : Char) (tl : List Char) (ha : a.isLower = true)
    (hb : b ≠ '(') (hp : '%' ∉ a :: b :: tl) (mode : Option Bool) (t : List Char)
    (h : containsChars (a :: b :: tl) (doPrintf mode t []) = true) :
    containsChars (a :: b :: tl) t = true := by
  induction t generalizing mode with
  | nil =>
    cases mode with
    | none => simpa [doPrintf, extraArgs] using h
    | some plus =>
      have e : doPrintf (some plus) [] [] = "%!(NOVERB)".data ++ [] := rfl
      rw [e, containsChars_peel_all a _ _ _ ha (by decide)] at h
      exact h
  | cons c r ih =>
    cases mode with
    | none =>
      by_cases hc : c = '%'
      · simp only [doPrintf, hc, if_true] at h
        exact containsChars_cons _ _ _ (ih _ h)
      · simp only [doPrintf, hc, if_false, containsChars, Bool.or_eq_true] at h
        rcases h with h | h
        · apply containsChars_of_hasLeading
          simp only [hasLeading, Bool.and_eq_true, decide_eq_true_eq] at h ⊢
          exact ⟨h.1, hasLeading_doPrintf _ _ (fun e => hp (by simp [e])) h.2⟩
        · exact containsChars_cons _ _ _ (ih _ h)
    | some plus =>
      by_cases h1 : c = '+'
      · simp only [doPrintf, h1, if_true] at h
        exact containsChars_cons _ _ _ (ih _ h)
      · by_cases h2 : c = '%'
        · have e : doPrintf (some plus) (c :: r) [] = '%' :: doPrintf none r [] := by
            simp [doPrintf, h2]
          rw [e, containsChars_peel a _ _ _ ha (by decide)] at h
          exact containsChars_cons _ _ _ (ih _ h)
        · have e : doPrintf (some plus) (c :: r) [] =
              "%!".data ++ (c :: '(' :: ("MISSING)".data ++ doPrintf none r [])) := by
            simp [doPrintf, h1, h2]
          rw [e, containsChars_peel_all a _ _ _ ha (by decide), containsChars_verb _ _ _ _ _ hb,
            containsChars_peel a _ _ _ ha (by decide),
            containsChars_peel_all a _ _ _ ha (by decide)] at h
          exact containsChars_cons _ _ _ (ih _ h)


theorem hasLeading_newline (q s : List Char) (hq : '\n' ∉ q)
    (h : hasLeading q (s ++ ['\n']) = true) : hasLeading q s = true := by
  induction q generalizing s with
  | nil => rfl
  | cons a q ih =>
    cases s with
    | nil =>
      simp only [List.nil_append, hasLeading, Bool.and_eq_true, decide_eq_true_eq] at h
      exact absurd h.1 (fun e => hq (by simp [e]))
    | cons c s =>
      simp only [List.cons_append, hasLeading, Bool.and_eq_true, decide_eq_true_eq] at h ⊢
      exact ⟨h.1, ih s (fun e => hq (by simp [e])) h.2⟩

theorem containsChars_newline (a : Char) (q s : List Char) (hq : '\n' ∉ a :: q)
    (h : containsChars (a :: q) (s ++ ['\n']) = true) : containsChars (a :: q) s = true := by
  induction s with
  | nil =>
    have ha : a ≠ '\n' := fun e => hq (by simp [e])
    simp [containsChars, hasLeading, ha] at h
  | cons c s ih =>
    simp only [List.cons_append, containsChars, Bool.or_eq_true] at h ⊢
    rcases h with h | h
    · exact Or.inl (hasLeading_newline _ (c :: s) hq h)
    · exact Or.inr (ih h)

theorem containsChars_lineEnd (a : Char) (q s : List Char) (x : String) (hq : '\n' ∉ a :: q)
    (h : containsChars (a :: q) (s ++ (lineEnd x).data) = true) :
    containsChars (a :: q) s = true := by
  unfold lineEnd at h
  split at h
  · simpa using h
  · exact containsChars_newline a q s hq h

theorem body_quiet (a b : Char) (tl : List Char) (ha : a.isLower = true) (hb : b ≠ '(')
    (hp : '%' ∉ a :: b :: tl) (hn : '\n' ∉ a :: b :: tl) (level msg x : String)
    (hl : ∀ c ∈ level.data ++ ": ".data, c.isLower = false ∧ c ≠ '%')
    (h : containsChars (a :: b :: tl)
      ((Sprintf (level ++ ": " ++ msg) []).data ++ (lineEnd x).data) = true) :
    containsChars (a :: b :: tl) msg.data = true := by
  have h1 := containsChars_lineEnd a _ _ x hn h
  have hpre : '%' ∉ level.data ++ ": ".data := fun e => (hl _ e).2 rfl
  unfold Sprintf at h1
  simp only [String.data_append] at h1
  rw [doPrintf_literal _ _ _ hpre, containsChars_peel_all a _ _ _ ha (fun c hc => (hl c hc).1)] at h1
  exact containsChars_doPrintf a b tl ha hb hp none _ h1

theorem standardLevels_quiet (level : String) (h : level ∈ standardLevels) :
    ∀ c ∈ level.data ++ ": ".data, c.isLower = false ∧ c ≠ '%' := by
  simp only [standardLevels, List.mem_cons, List.mem_singleton, List.not_mem_nil, or_false] at h
  rcases h with h | h | h | h <;> subst h <;> decide

theorem body_no_phrase (level msg x : String) (hl : level ∈ standardLevels)
    (hc : cleanTemplate msg = true) (p : String) (hp : p ∈ suppressedPhrases) :
    stringsContains (Sprintf (level ++ ": " ++ msg) [] ++ lineEnd x) p = false := by
  rw [cleanTemplate_iff] at hc
  have hq := standardLevels_quiet level hl
  simp only [suppressedPhrases, List.mem_cons, List.mem_singleton, List.not_mem_nil,
    or_false] at hp
  unfold stringsContains at hc ⊢
  rw [String.data_append]
  rcases hp with hp | hp | hp <;> subst hp <;> rw [Bool.eq_false_iff] <;> intro h
  · have := body_quiet 'n' 'o' _ (by decide) (by decide) (by decide) (by decide) level msg x hq h
    rw [hc.1] at this
    exact Bool.noConfusion this
  · have := body_quiet 't' 'o' _ (by decide) (by decide) (by decide) (by decide) level msg x hq h
    rw [hc.2.1] at this
    exact Bool.noConfusion this
  · have := body_quiet 'p' 'a' _ (by decide) (by decide) (by decide) (by decide) level msg x hq h
    rw [hc.2.2] at this
    exact Bool.noConfusion this

/-- C2 (counterexample): the claim that no suppressed phrase ever reaches the
log file fails when the phrase comes from an argument.  The commit-failure
call of the consume loop, made with an error text that mentions a partition,
writes a line that contains "partition ". -/
theorem sink_phrase_counterexample :
    (customLogger "A" "a.log" false).call "T" "ERROR" "Failed to commit message: %v\n"
        [.str "partition 3 is not assigned"] =
      ["[A] T consumer.go:48: ERROR: Failed to commit message: partition 3 is not assigned\n"] ∧
    stringsContains
      "[A] T consumer.go:48: ERROR: Failed to commit message: partition 3 is not assigned\n"
      "partition " = true := by
  decide

/-- C2 (amended): every line the logger function writes comes from a template
that holds none of the suppressed phrases; and when the call has one of the
four standard levels, no arguments and a template with simple directives only
(no `%` followed, after any `+`, by another flag, a width, a precision or an
argument index), the text written after the logger header holds none of them
either.  (Only the template is checked, so a phrase can still arrive through
a substituted argument.) -/
theorem written_line_phrases (l : Logger) (stamp level msg : String) (args : List Arg)
    (line : String) (h : line ∈ l.call stamp level msg args) :
    cleanTemplate msg = true ∧
    (level ∈ standardLevels → args = [] → simpleDirectives msg = true →
      ∃ body, line = l.header stamp ++ body ∧
        ∀ p ∈ suppressedPhrases, stringsContains body p = false) := by
  have hc : cleanTemplate msg = true := by
    cases hm : cleanTemplate msg with
    | true => rfl
    | false => rw [call_suppressed l stamp level msg args hm] at h; simp at h
  refine ⟨hc, fun hl ha _ => ?_⟩
  subst ha
  rw [call_clean l stamp level msg [] hc] at h
  split at h
  · simp at h
  · rw [List.mem_singleton] at h
    refine ⟨Sprintf (level ++ ": " ++ msg) [] ++ lineEnd (Sprintf (level ++ ": " ++ msg) []),
      ?_, fun p hp => body_no_phrase level msg _ hl hc p hp⟩
    rw [h, Logger.Printf, String.append_assoc]

/-- C2 (witness): the "Starting Kafka consumer..." notice of `Start`. -/
theorem written_line_phrases_witness :
    "[A] T consumer.go:48: INFO: Starting Kafka consumer...\n" ∈
        (customLogger "A" "a.log" false).call "T" "INFO" "Starting Kafka consumer..." [] ∧
    "INFO" ∈ standardLevels ∧ simpleDirectives "Starting Kafka consumer..." = true ∧
    (cleanTemplate "Starting Kafka consumer..." = true ∧
      ("INFO" ∈ standardLevels → ([] : List Arg) = [] →
        simpleDirectives "Starting Kafka consumer..." = true →
        ∃ body, "[A] T consumer.go:48: INFO: Starting Kafka consumer...\n" =
            (customLogger "A" "a.log" false).header "T" ++ body ∧
          ∀ p ∈ suppressedPhrases, stringsContains body p = false)) :=
  ⟨by decide, by decide, by decide,
    written_line_phrases (customLogger "A" "a.log" false) "T" "INFO"
      "Starting Kafka consumer..." [] _ (by decide)⟩

/-- C3: a call whose template contains "no messages received from kafka",
"topic: " or "partition " writes nothing, whatever the level, the debug flag
of the logger and the arguments: the check looks at the template only and
comes before the DEBUG gate. -/
theorem denylist_first (l : Logger) (stamp level msg : String) (args : List Arg)
    (h : stringsContains msg "no messages received from kafka" = true ∨
      stringsContains msg "topic: " = true ∨ stringsContains msg "partition " = true) :
    l.call stamp level msg args = [] := by
  apply call_suppressed
  cases hc : cleanTemplate msg with
  | false => rfl
  | true =>
    rw [cleanTemplate_iff] at hc
    rcases h with h | h | h
    · rw [hc.1] at h; exact Bool.noConfusion h
    · rw [hc.2.1] at h; exact Bool.noConfusion h
    · rw [hc.2.2] at h; exact Bool.noConfusion h

/-- C3 (witness): the first notice of `handler1`, at level INFO, with the
debug flag on. -/
theorem denylist_first_witness :
    (stringsContains "Handler1 processing message with topic: %s"
          "no messages received from kafka" = true ∨
        stringsContains "Handler1 processing message with topic: %s" "topic: " = true ∨
        stringsContains "Handler1 processing message with topic: %s" "partition " = true) ∧
    (customLogger "A" "a.log" true).call "T" "INFO"
        "Handler1 processing message with topic: %s" [.str "topicA"] = [] :=
  ⟨by decide, denylist_first _ _ _ _ _ (by decide)⟩

/-- C4 (counterexample): a level other than "DEBUG" need not head the line.
The level is part of the format handed to `Printf`, so the level "%%" is
printed as a single percent sign. -/
theorem level_start_counterexample :
    cleanTemplate "x" = true ∧ "%%" ≠ "DEBUG" ∧
    (customLogger "A" "a.log" false).call "T" "%%" "x" [] = ["[A] T consumer.go:48: %: x\n"] ∧
    startsWith "[A] T consumer.go:48: %: x\n"
      ((customLogger "A" "a.log" false).header "T" ++ "%%" ++ ": ") = false := by
  decide

/-- C4 (amended): for a template with no suppressed phrase and any arguments,
a "DEBUG" call writes exactly one line when the debug flag is on and nothing
when it is off; a call with any other level, whatever characters it holds,
writes exactly one line, the same for both values of the flag; when the level
holds no percent sign, as is the case of the four levels the program passes,
that line is the logger header followed by the level, a colon and a space (so
is the "DEBUG" line); a sequence of calls with the flag off writes exactly
what the same sequence without its "DEBUG" calls writes with the flag on; and
the flag of the logger of an engine is the `DebugMode` of its spec. -/
theorem debug_gate (tag file stamp level msg : String) (args : List Arg)
    (calls : List LogCall) (config : ConsumerConfig) (handler : HandleMessage) (ctx : Nat)
    (openErr : String → Option String) (h : cleanTemplate msg = true) (hl : level ≠ "DEBUG") :
    (customLogger tag file true).call stamp "DEBUG" msg args =
      [(customLogger tag file true).Printf stamp ("DEBUG" ++ ": " ++ msg) args] ∧
    startsWith ((customLogger tag file true).Printf stamp ("DEBUG" ++ ": " ++ msg) args)
      ((customLogger tag file true).header stamp ++ "DEBUG" ++ ": ") = true ∧
    (customLogger tag file false).call stamp "DEBUG" msg args = [] ∧
    (∀ debug, (customLogger tag file debug).call stamp level msg args =
      [(customLogger tag file true).Printf stamp (level ++ ": " ++ msg) args]) ∧
    ('%' ∉ level.data →
      startsWith ((customLogger tag file true).Printf stamp (level ++ ": " ++ msg) args)
        ((customLogger tag file true).header stamp ++ level ++ ": ") = true) ∧
    (∀ lv ∈ standardLevels,
      startsWith ((customLogger tag file true).Printf stamp (lv ++ ": " ++ msg) args)
        ((customLogger tag file true).header stamp ++ lv ++ ": ") = true) ∧
    (customLogger tag file false).run calls =
      (customLogger tag file true).run (calls.filter fun c => decide (c.level ≠ "DEBUG")) ∧
    (match NewKafkaConsumer config handler ctx openErr with
      | .ok kc => kc.logger.enableDebug = config.DebugMode
      | .error _ => True) := by
  refine ⟨?_, ?_, ?_, ?_, fun hp => printf_startsWith _ stamp level msg args hp,
    fun lv hlv => printf_startsWith _ stamp lv msg args ?_, run_debug_off tag file calls, ?_⟩
  · rw [call_clean _ _ _ _ _ h]
    simp [customLogger]
  · exact printf_startsWith (customLogger tag file true) stamp "DEBUG" msg args (by decide)
  · rw [call_clean _ _ _ _ _ h]
    simp [customLogger]
  · intro debug
    rw [call_clean _ _ _ _ _ h]
    simp [hl, customLogger, Logger.Printf, Logger.header]
  · simp only [standardLevels, List.mem_cons, List.mem_singleton, List.not_mem_nil,
      or_false] at hlv
    rcases hlv with e | e | e | e <;> subst e <;> decide
  · cases hn : NewKafkaConsumer config handler ctx openErr with
    | error exit => trivial
    | ok kc =>
      obtain ⟨_, hv, hk⟩ := NewKafkaConsumer_ok config handler ctx openErr kc hn
      subst hk
      rfl

/-- C4 (witness): the "Attempting to reconnect to Kafka..." notice at level
INFO, a level with a percent sign, and a sequence of one DEBUG and one INFO
call. -/
theorem debug_gate_witness :
    cleanTemplate "Attempting to reconnect to Kafka..." = true ∧ "INFO" ≠ "DEBUG" ∧
    '%' ∉ "INFO".data ∧ "%%" ≠ "DEBUG" ∧
    (customLogger "A" "a.log" true).call "T" "DEBUG" "Attempting to reconnect to Kafka..." [] =
      [(customLogger "A" "a.log" true).Printf "T"
        ("DEBUG" ++ ": " ++ "Attempting to reconnect to Kafka...") []] ∧
    (customLogger "A" "a.log" false).call "T" "DEBUG" "Attempting to reconnect to Kafka..." [] =
      [] ∧
    (customLogger "A" "a.log" false).call "T" "INFO" "Attempting to reconnect to Kafka..." [] =
      [(customLogger "A" "a.log" true).Printf "T"
        ("INFO" ++ ": " ++ "Attempting to reconnect to Kafka...") []] ∧
    startsWith
      ((customLogger "A" "a.log" true).Printf "T"
        ("INFO" ++ ": " ++ "Attempting to reconnect to Kafka...") [])
      ((customLogger "A" "a.log" true).header "T" ++ "INFO" ++ ": ") = true ∧
    (∀ debug, (customLogger "A" "a.log" debug).call "T" "%%"
        "Attempting to reconnect to Kafka..." [] =
      [(customLogger "A" "a.log" true).Printf "T"
        ("%%" ++ ": " ++ "Attempting to reconnect to Kafka...") []]) ∧
    (customLogger "A" "a.log" false).run
        [⟨"T", "DEBUG", "fetching %d bytes", [.int 10]⟩, ⟨"U", "INFO", "ready", []⟩] =
      (customLogger "A" "a.log" true).run
        ([⟨"T", "DEBUG", "fetching %d bytes", [.int 10]⟩, ⟨"U", "INFO", "ready", []⟩].filter
          fun c => decide (c.level ≠ "DEBUG")) :=
  ⟨by decide, by decide, by decide, by decide,
    (debug_gate "A" "a.log" "T" "INFO" "Attempting to reconnect to Kafka..." []
      [⟨"T", "DEBUG", "fetching %d bytes", [.int 10]⟩, ⟨"U", "INFO", "ready", []⟩]
      specA ⟨.handler1, ⟨"localhost", 6379⟩, ⟨"localhost", 27017, "dev", "dev", "main"⟩,
        ⟨"localhost", 3306, "dev", "dev", "main"⟩⟩ 0 openNonEmpty
      (by decide) (by decide)).1,
    (debug_gate "A" "a.log" "T" "INFO" "Attempting to reconnect to Kafka..." []
      [⟨"T", "DEBUG", "fetching %d bytes", [.int 10]⟩, ⟨"U", "INFO", "ready", []⟩]
      specA ⟨.handler1, ⟨"localhost", 6379⟩, ⟨"localhost", 27017, "dev", "dev", "main"⟩,
        ⟨"localhost", 3306, "dev", "dev", "main"⟩⟩ 0 openNonEmpty
      (by decide) (by decide)).2.2.1,
    (debug_gate "A" "a.log" "T" "INFO" "Attempting to reconnect to Kafka..." []
      [⟨"T", "DEBUG", "fetching %d bytes", [.int 10]⟩, ⟨"U", "INFO", "ready", []⟩]
      specA ⟨.handler1, ⟨"localhost", 6379⟩, ⟨"localhost", 27017, "dev", "dev", "main"⟩,
        ⟨"localhost", 3306, "dev", "dev", "main"⟩⟩ 0 openNonEmpty
      (by decide) (by decide)).2.2.2.1 false,
    (debug_gate "A" "a.log" "T" "INFO" "Attempting to reconnect to Kafka..." []
      [⟨"T", "DEBUG", "fetching %d bytes", [.int 10]⟩, ⟨"U", "INFO", "ready", []⟩]
      specA ⟨.handler1, ⟨"localhost", 6379⟩, ⟨"localhost", 27017, "dev", "dev", "main"⟩,
        ⟨"localhost", 3306, "dev", "dev", "main"⟩⟩ 0 openNonEmpty
      (by decide) (by decide)).2.2.2.2.1 (by decide),
    (debug_gate "A" "a.log" "T" "%%" "Attempting to reconnect to Kafka..." []
      [⟨"T", "DEBUG", "fetching %d bytes", [.int 10]⟩, ⟨"U", "INFO", "ready", []⟩]
      specA ⟨.handler1, ⟨"localhost", 6379⟩, ⟨"localhost", 27017, "dev", "dev", "main"⟩,
        ⟨"localhost", 3306, "dev", "dev", "main"⟩⟩ 0 openNonEmpty
      (by decide) (by decide)).2.2.2.1,
    (debug_gate "A" "a.log" "T" "INFO" "Attempting to reconnect to Kafka..." []
      [⟨"T", "DEBUG", "fetching %d bytes", [.int 10]⟩, ⟨"U", "INFO", "ready", []⟩]
      specA ⟨.handler1, ⟨"localhost", 6379⟩, ⟨"localhost", 27017, "dev", "dev", "main"⟩,
        ⟨"localhost", 3306, "dev", "dev", "main"⟩⟩ 0 openNonEmpty
      (by decide) (by decide)).2.2.2.2.2.2.1⟩

/-! ## Fleet start-up and environment selection -/

theorem createConsumers_step (r : RedisConfig) (mo : MongoConfig) (my : MySQLConfig)
    (openErr : String → Option String) (s : ConsumerConfig) (rest : List ConsumerConfig)
    (acc : List KafkaConsumer) (hf : HandlerFunc) (kc : KafkaConsumer)
    (hh : handlers s.HandlerName = some hf)
    (hn : NewKafkaConsumer s ⟨hf, r, mo, my⟩ acc.length openErr = .ok kc) :
    main.createConsumers r mo my openErr (s :: rest) acc =
      { main.createConsumers r mo my openErr rest (acc ++ [kc]) with
        trace := [.newConsumer kc] ++ kc.Start ++
          (main.createConsumers r mo my openErr rest (acc ++ [kc])).trace } := by
  simp only [main.createConsumers, hh, hn]

theorem createConsumers_exit (r : RedisConfig) (mo : MongoConfig) (my : MySQLConfig)
    (openErr : String → Option String) (s : ConsumerConfig) (rest : List ConsumerConfig)
    (acc : List KafkaConsumer) (hf : HandlerFunc) (exit : Exit)
    (hh : handlers s.HandlerName = some hf)
    (hn : NewKafkaConsumer s ⟨hf, r, mo, my⟩ acc.length openErr = .error exit) :
    main.createConsumers r mo my openErr (s :: rest) acc =
      { trace := [exit.event], consumers := acc, fatal := some exit.text } := by
  simp only [main.createConsumers, hh, hn]

theorem exit_event (exit : Exit) :
    exit.event.spawned = none ∧ exit.event.constructed = none := by
  cases exit <;> exact ⟨rfl, rfl⟩

theorem createConsumers_cons (r : RedisConfig) (mo : MongoConfig) (my : MySQLConfig)
    (openErr : String → Option String) (s : ConsumerConfig) (rest : List ConsumerConfig)
    (acc : List KafkaConsumer) (hf : HandlerFunc) (hh : handlers s.HandlerName = some hf)
    (ho : openErr s.LogFile = none) (hv : s.Brokers ≠ [] ∧ s.Topic ≠ "") :
    main.createConsumers r mo my openErr (s :: rest) acc =
      { main.createConsumers r mo my openErr rest
          (acc ++ [newEngine s ⟨hf, r, mo, my⟩ acc.length hv]) with
        trace := [.newConsumer (newEngine s ⟨hf, r, mo, my⟩ acc.length hv)] ++
          (newEngine s ⟨hf, r, mo, my⟩ acc.length hv).Start ++
          (main.createConsumers r mo my openErr rest
            (acc ++ [newEngine s ⟨hf, r, mo, my⟩ acc.length hv])).trace } :=
  createConsumers_step r mo my openErr s rest acc hf _ hh
    (NewKafkaConsumer_opened s ⟨hf, r, mo, my⟩ acc.length openErr ho hv)

theorem newEngine_bound (r : RedisConfig) (mo : MongoConfig) (my : MySQLConfig)
    (s : ConsumerConfig) (hf : HandlerFunc) (ctx : Nat) (hv : s.Brokers ≠ [] ∧ s.Topic ≠ "")
    (hh : handlers s.HandlerName = some hf) :
    BoundTo r mo my s (newEngine s ⟨hf, r, mo, my⟩ ctx hv) :=
  ⟨rfl, rfl, rfl, rfl, rfl, hf, hh, fun _ => rfl⟩

theorem createConsumers_ok (r : RedisConfig) (mo : MongoConfig) (my : MySQLConfig)
    (openErr : String → Option String) (specs : List ConsumerConfig)
    (acc : List KafkaConsumer)
    (h : ∀ s ∈ specs, (handlers s.HandlerName).isSome = true ∧ openErr s.LogFile = none ∧
      s.Brokers ≠ [] ∧ s.Topic ≠ "") :
    ∃ built,
      (main.createConsumers r mo my openErr specs acc).consumers = acc ++ built ∧
      (main.createConsumers r mo my openErr specs acc).fatal = none ∧
      List.Forall₂ (BoundTo r mo my) specs built ∧
      (main.createConsumers r mo my openErr specs acc).trace.filterMap Event.spawned = built ∧
      (main.createConsumers r mo my openErr specs acc).trace.filterMap Event.constructed = built ∧
      built.map (fun kc => kc.ctx) = (List.range specs.length).map (fun i => acc.length + i) := by
  induction specs generalizing acc with
  | nil => exact ⟨[], by simp [main.createConsumers]⟩
  | cons s rest ih =>
    obtain ⟨hs, ho, hv⟩ := h s (by simp)
    obtain ⟨hf, hhf⟩ := Option.isSome_iff_exists.mp hs
    obtain ⟨built, h1, h2, h3, h4, h5, h6⟩ :=
      ih (acc ++ [newEngine s ⟨hf, r, mo, my⟩ acc.length hv]) (fun x hx => h x (by simp [hx]))
    rw [createConsumers_cons r mo my openErr s rest acc hf hhf ho hv]
    refine ⟨newEngine s ⟨hf, r, mo, my⟩ acc.length hv :: built, ?_, h2, ?_, ?_, ?_, ?_⟩
    · simp [h1]
    · exact List.Forall₂.cons (newEngine_bound r mo my s hf _ hv hhf) h3
    · simp [KafkaConsumer.Start, Event.spawned, h4]
    · simp [KafkaConsumer.Start, Event.constructed, h5]
    · simp only [List.map_cons, h6, List.length_append, List.length_singleton, List.length_cons]
      rw [List.range_succ_eq_map]
      simp [newEngine, Nat.add_assoc, Nat.add_comm 1]

theorem createConsumers_unknown (r : RedisConfig) (mo : MongoConfig) (my : MySQLConfig)
    (openErr : String → Option String) (pre : List ConsumerConfig) (bad : ConsumerConfig)
    (post : List ConsumerConfig) (acc : List KafkaConsumer)
    (h : ∀ s ∈ pre, (handlers s.HandlerName).isSome = true ∧ openErr s.LogFile = none ∧
      s.Brokers ≠ [] ∧ s.Topic ≠ "")
    (hbad : handlers bad.HandlerName = none) :
    ∃ built,
      (main.createConsumers r mo my openErr (pre ++ bad :: post) acc).consumers = acc ++ built ∧
      (main.createConsumers r mo my openErr (pre ++ bad :: post) acc).fatal =
        some (Sprintf "Handler %s not found\n" [.str bad.HandlerName]) ∧
      List.Forall₂ (BoundTo r mo my) pre built ∧
      (main.createConsumers r mo my openErr (pre ++ bad :: post) acc).trace.filterMap
        Event.spawned = built ∧
      (main.createConsumers r mo my openErr (pre ++ bad :: post) acc).trace.filterMap
        Event.constructed = built ∧
      (main.createConsumers r mo my openErr (pre ++ bad :: post) acc).trace.getLast? =
        some (.fatal (Sprintf "Handler %s not found\n" [.str bad.HandlerName])) := by
  induction pre generalizing acc with
  | nil =>
    refine ⟨[], ?_⟩
    simp [main.createConsumers, hbad, Event.spawned, Event.constructed]
  | cons s rest ih =>
    obtain ⟨hs, ho, hv⟩ := h s (by simp)
    obtain ⟨hf, hhf⟩ := Option.isSome_iff_exists.mp hs
    obtain ⟨built, h1, h2, h3, h4, h5, h6⟩ :=
      ih (acc ++ [newEngine s ⟨hf, r, mo, my⟩ acc.length hv]) (fun x hx => h x (by simp [hx]))
    rw [List.cons_append, createConsumers_cons r mo my openErr s _ acc hf hhf ho hv]
    refine ⟨newEngine s ⟨hf, r, mo, my⟩ acc.length hv :: built, ?_, h2, ?_, ?_, ?_, ?_⟩
    · simp [h1]
    · exact List.Forall₂.cons (newEngine_bound r mo my s hf _ hv hhf) h3
    · simp [KafkaConsumer.Start, Event.spawned, h4]
    · simp [KafkaConsumer.Start, Event.constructed, h5]
    · simp only [List.getLast?_append, h6]
      rfl

theorem createConsumers_spawned (r : RedisConfig) (mo : MongoConfig) (my : MySQLConfig)
    (openErr : String → Option String) (specs : List ConsumerConfig)
    (acc : List KafkaConsumer) :
    acc ++ (main.createConsumers r mo my openErr specs acc).trace.filterMap Event.spawned =
      (main.createConsumers r mo my openErr specs acc).consumers := by
  induction specs generalizing acc with
  | nil => simp [main.createConsumers]
  | cons s rest ih =>
    cases hh : handlers s.HandlerName with
    | none => simp [main.createConsumers, hh, Event.spawned]
    | some hf =>
      cases hn : NewKafkaConsumer s ⟨hf, r, mo, my⟩ acc.length openErr with
      | error exit =>
        rw [createConsumers_exit r mo my openErr s rest acc hf exit hh hn]
        simp [(exit_event exit).1]
      | ok kc =>
        rw [createConsumers_step r mo my openErr s rest acc hf kc hh hn]
        have := ih (acc ++ [kc])
        simp only [List.append_assoc, List.singleton_append] at this
        simp [KafkaConsumer.Start, Event.spawned, this]

theorem banner_spawned (env : String) (r : RedisConfig) (mo : MongoConfig) (my : MySQLConfig) :
    (main.banner env r mo my).filterMap Event.spawned = [] ∧
    (main.banner env r mo my).filterMap Event.constructed = [] := by
  simp [main.banner, Event.spawned, Event.constructed]

theorem startup_spawned (given : Option String) (file : Except String FullConfig)
    (openErr : String → Option String) :
    (main.startup given file openErr).trace.filterMap Event.spawned =
      (main.startup given file openErr).consumers := by
  cases file with
  | error err => simp [main.startup, Event.spawned]
  | ok config =>
    cases he : GetEnvConfig (envFlag given) config with
    | error text => simp [main.startup, he, Event.spawned]
    | ok triple =>
      obtain ⟨r, mo, my⟩ := triple
      have := createConsumers_spawned r mo my openErr config.KafkaConsumers []
      simp only [List.nil_append] at this
      simp [main.startup, he, List.filterMap_append, (banner_spawned _ r mo my).1, this]

theorem startup_ok (given : Option String) (config : FullConfig)
    (openErr : String → Option String) (r : RedisConfig) (mo : MongoConfig) (my : MySQLConfig)
    (henv : GetEnvConfig (envFlag given) config = .ok (r, mo, my)) :
    main.startup given (.ok config) openErr =
      { main.createConsumers r mo my openErr config.KafkaConsumers [] with
        trace := main.banner (envFlag given) r mo my ++
          (main.createConsumers r mo my openErr config.KafkaConsumers []).trace } := by
  simp [main.startup, henv]

theorem iteration_handles (kc : KafkaConsumer) (w : Bool) (f : Fetched) :
    (kc.iteration w f).2.2.filter Event.isHandle =
      match f with
      | .message message _ => [kc.handleMessage.invoke message kc.consumerConfig kc.logger]
      | .error _ => [] := by
  cases f with
  | error err => rw [iteration_error]; cases w <;> simp [Event.isHandle]
  | message m c =>
    cases w <;> cases c <;>
      simp [KafkaConsumer.iteration, Event.isHandle, HandleMessage.invoke]

theorem iteration_engine (kc : KafkaConsumer) (w : Bool) (f : Fetched) :
    (kc.iteration w f).1.handleMessage = kc.handleMessage ∧
    (kc.iteration w f).1.consumerConfig = kc.consumerConfig ∧
    (kc.iteration w f).1.logger = kc.logger ∧
    (kc.iteration w f).1.ctx = kc.ctx := by
  cases f with
  | error err => rw [iteration_error]; exact ⟨rfl, rfl, rfl, rfl⟩
  | message m c => exact ⟨rfl, rfl, rfl, rfl⟩

theorem consume_handle (kc : KafkaConsumer) (w : Bool) (polls : List Poll) (e : Event)
    (he : e ∈ (kc.consume w polls).trace) (hh : e.isHandle = true) :
    ∃ message, e = kc.handleMessage.invoke message kc.consumerConfig kc.logger := by
  induction polls generalizing kc w with
  | nil => simp [KafkaConsumer.consume] at he
  | cons p rest ih =>
    cases p with
    | done =>
      simp only [KafkaConsumer.consume, List.mem_singleton] at he
      subst he
      simp [Event.isHandle] at hh
    | fetch f =>
      rw [consume_fetch_cons] at he
      simp only [List.mem_append] at he
      rcases he with he | he
      · have hm : e ∈ (kc.iteration w f).2.2.filter Event.isHandle :=
          List.mem_filter.mpr ⟨he, hh⟩
        rw [iteration_handles] at hm
        cases f with
        | error err => simp at hm
        | message m c => exact ⟨m, by simpa using hm⟩
      · obtain ⟨m, hm⟩ := ih _ _ he
        obtain ⟨h1, h2, h3, _⟩ := iteration_engine kc w f
        exact ⟨m, by rw [hm, h1, h2, h3]⟩

/-- C5 (counterexample): with `topicA`/`handler1` listed before a spec that
names the unknown `handler9`, `main` ends with the fatal "Handler handler9 not
found", but the engine of the first spec has already been constructed and its
`Start` has already launched its goroutine. -/
theorem partial_fleet_counterexample :
    (main.startup none (.ok (sampleConfig [specA, specUnknown])) (fun _ => none)).fatal =
      some "Handler handler9 not found\n" ∧
    ((main.startup none (.ok (sampleConfig [specA, specUnknown])) (fun _ => none)).trace.filterMap
      Event.spawned).map (fun kc => kc.consumerConfig) = [specA] ∧
    ((main.startup none (.ok (sampleConfig [specA, specUnknown])) (fun _ => none)).trace.filterMap
      Event.constructed).map (fun kc => kc.consumerConfig) = [specA] := by
  decide

/-- C5 (amended): when the configuration file loads, the environment name is
valid, and the configuration lists specs `pre` whose handlers are registered,
whose log files open and whose broker list and topic are not empty, then a
spec `bad` whose handler name is not in the registry, `main` ends with the
fatal "Handler ... not found" for `bad` as its last event and never reaches
the signal wait; by then exactly the engines of `pre` have been constructed
and started, in order, each bound to its spec, and none for `bad` or a later
spec.  When `bad` comes first, no engine has been constructed or started. -/
theorem unknown_handler_fatal (given : Option String) (config : FullConfig)
    (openErr : String → Option String) (readerNow : Nat → Reader)
    (closeErr : Reader → Option String) (r : RedisConfig) (mo : MongoConfig) (my : MySQLConfig)
    (pre : List ConsumerConfig) (bad : ConsumerConfig) (post : List ConsumerConfig)
    (hcfg : config.KafkaConsumers = pre ++ bad :: post)
    (henv : GetEnvConfig (envFlag given) config = .ok (r, mo, my))
    (hpre : ∀ s ∈ pre, (handlers s.HandlerName).isSome = true ∧ openErr s.LogFile = none ∧
      s.Brokers ≠ [] ∧ s.Topic ≠ "")
    (hbad : handlers bad.HandlerName = none) :
    (main.startup given (.ok config) openErr).fatal =
      some (Sprintf "Handler %s not found\n" [.str bad.HandlerName]) ∧
    main given (.ok config) openErr readerNow closeErr =
      (main.startup given (.ok config) openErr).trace ∧
    (main.startup given (.ok config) openErr).trace.getLast? =
      some (.fatal (Sprintf "Handler %s not found\n" [.str bad.HandlerName])) ∧
    (main.startup given (.ok config) openErr).trace.filterMap Event.constructed =
      (main.startup given (.ok config) openErr).consumers ∧
    (main.startup given (.ok config) openErr).trace.filterMap Event.spawned =
      (main.startup given (.ok config) openErr).consumers ∧
    List.Forall₂ (BoundTo r mo my) pre (main.startup given (.ok config) openErr).consumers ∧
    (main.startup given (.ok config) openErr).consumers.length = pre.length := by
  obtain ⟨built, h1, h2, h3, h4, h5, h6⟩ :=
    createConsumers_unknown r mo my openErr pre bad post [] hpre hbad
  rw [← hcfg] at h1 h2 h4 h5 h6
  rw [List.nil_append] at h1
  have hf : (main.startup given (.ok config) openErr).fatal =
      some (Sprintf "Handler %s not found\n" [.str bad.HandlerName]) := by
    rw [startup_ok given config openErr r mo my henv]
    exact h2
  refine ⟨hf, ?_, ?_, ?_, ?_, ?_, ?_⟩
  · simp only [main, hf]
  · rw [startup_ok given config openErr r mo my henv]
    simp only [List.getLast?_append, h6]
    rfl
  · rw [startup_ok given config openErr r mo my henv]
    simp only [List.filterMap_append, (banner_spawned _ r mo my).2, List.nil_append, h5, h1]
  · exact startup_spawned given (.ok config) openErr
  · rw [startup_ok given config openErr r mo my henv]
    simp only [h1]
    exact h3
  · rw [startup_ok given config openErr r mo my henv]
    simp only [h1]
    exact h3.length_eq.symm

/-- C5 (witness): `topicA`/`handler1` followed by the unknown `handler9`. -/
theorem unknown_handler_fatal_witness :
    (sampleConfig [specA, specUnknown]).KafkaConsumers = [specA] ++ specUnknown :: [] ∧
    GetEnvConfig (envFlag none) (sampleConfig [specA, specUnknown]) =
      .ok ((sampleConfig []).Redis.Development, (sampleConfig []).Mongo.Development,
        (sampleConfig []).MySQL.Development) ∧
    (∀ s ∈ [specA], (handlers s.HandlerName).isSome = true ∧
      (fun _ => none : String → Option String) s.LogFile = none ∧
      s.Brokers ≠ [] ∧ s.Topic ≠ "") ∧
    handlers specUnknown.HandlerName = none ∧
    (main.startup none (.ok (sampleConfig [specA, specUnknown])) (fun _ => none)).consumers.length =
      [specA].length :=
  ⟨by decide, rfl, by decide, by decide,
    (unknown_handler_fatal none (sampleConfig [specA, specUnknown]) (fun _ => none)
      (fun _ => acceptedReader [] "" "" (customLogger "" "" false) 0) (fun _ => none)
      (sampleConfig []).Redis.Development (sampleConfig []).Mongo.Development
      (sampleConfig []).MySQL.Development [specA] specUnknown [] (by decide) rfl (by decide)
      (by decide)).2.2.2.2.2.2⟩

/-- C6 (counterexample): every handler name of the configuration is
registered, yet `main` constructs and starts no engine: the single spec leaves
`log_file` empty, opening it fails, and `NewKafkaConsumer` ends the process.
The same happens, by a panic in `createConsumer`, when the single spec has an
empty broker list. -/
theorem fleet_size_counterexample :
    (∀ s ∈ (sampleConfig [specNoLog]).KafkaConsumers, (handlers s.HandlerName).isSome = true) ∧
    (sampleConfig [specNoLog]).KafkaConsumers.length = 1 ∧
    (main.startup none (.ok (sampleConfig [specNoLog])) openNonEmpty).fatal =
      some "Failed to create log file: open : no such file or directory\n" ∧
    (main.startup none (.ok (sampleConfig [specNoLog])) openNonEmpty).trace.filterMap
      Event.constructed = [] ∧
    (main.startup none (.ok (sampleConfig [specNoLog])) openNonEmpty).trace.filterMap
      Event.spawned = [] ∧
    (∀ s ∈ (sampleConfig [specNoBrokers]).KafkaConsumers,
      (handlers s.HandlerName).isSome = true ∧ openNonEmpty s.LogFile = none) ∧
    (main.startup none (.ok (sampleConfig [specNoBrokers])) openNonEmpty).consumers = [] ∧
    (main.startup none (.ok (sampleConfig [specNoBrokers])) openNonEmpty).trace.getLast? =
      some (.panic "cannot create a new kafka reader with an empty list of broker addresses") ∧
    (main.startup none (.ok (sampleConfig [specNoBrokers])) openNonEmpty).trace.filterMap
      Event.spawned = [] := by
  decide

/-- C6 (amended): when the configuration file loads, the environment name is
valid, every handler name of the configuration is registered, every log file
opens and no spec has an empty broker list or an empty topic, `main` reaches
the signal wait having constructed and started exactly one engine per spec, in
configuration order, the i-th engine bound to the i-th spec (stored spec,
logger, brokers, topic, group, and a `handleMessage` that calls the registry
entry for the handler name of that spec with the message, that spec, the
logger of the engine and the configurations of the selected environment);
and every handler call made by the loop of such an engine, on whatever it
fetches, is a call of its own `handleMessage` with its own spec and logger. -/
theorem fleet_bound (given : Option String) (config : FullConfig)
    (openErr : String → Option String) (r : RedisConfig) (mo : MongoConfig) (my : MySQLConfig)
    (henv : GetEnvConfig (envFlag given) config = .ok (r, mo, my))
    (hreg : ∀ s ∈ config.KafkaConsumers, (handlers s.HandlerName).isSome = true)
    (hopen : ∀ s ∈ config.KafkaConsumers, openErr s.LogFile = none)
    (hread : ∀ s ∈ config.KafkaConsumers, s.Brokers ≠ [] ∧ s.Topic ≠ "") :
    (main.startup given (.ok config) openErr).fatal = none ∧
    (main.startup given (.ok config) openErr).consumers.length = config.KafkaConsumers.length ∧
    (main.startup given (.ok config) openErr).trace.filterMap Event.constructed =
      (main.startup given (.ok config) openErr).consumers ∧
    (main.startup given (.ok config) openErr).trace.filterMap Event.spawned =
      (main.startup given (.ok config) openErr).consumers ∧
    List.Forall₂ (BoundTo r mo my) config.KafkaConsumers
      (main.startup given (.ok config) openErr).consumers ∧
    (∀ kc ∈ (main.startup given (.ok config) openErr).consumers,
      ∀ (w : Bool) (polls : List Poll), ∀ e ∈ (kc.consume w polls).trace, e.isHandle = true →
        ∃ message, e = kc.handleMessage.invoke message kc.consumerConfig kc.logger) := by
  obtain ⟨built, h1, h2, h3, _, h5, _⟩ :=
    createConsumers_ok r mo my openErr config.KafkaConsumers []
      (fun s hs => ⟨hreg s hs, hopen s hs, hread s hs⟩)
  rw [List.nil_append] at h1
  refine ⟨?_, ?_, ?_, startup_spawned given (.ok config) openErr, ?_,
    fun kc _ w polls e he hh => consume_handle kc w polls e he hh⟩
  · rw [startup_ok given config openErr r mo my henv]
    exact h2
  · rw [startup_ok given config openErr r mo my henv]
    simp only [h1]
    exact h3.length_eq.symm
  · rw [startup_ok given config openErr r mo my henv]
    simp only [List.filterMap_append, (banner_spawned _ r mo my).2, List.nil_append, h5, h1]
  · rw [startup_ok given config openErr r mo my henv]
    simp only [h1]
    exact h3

/-- C6 (witness): `topicA` with `handler1` and `topicB` with `handler2`, in
the staging environment. -/
theorem fleet_bound_witness :
    GetEnvConfig (envFlag (some "staging")) (sampleConfig [specA, specB]) =
      .ok ((sampleConfig []).Redis.Staging, (sampleConfig []).Mongo.Staging,
        (sampleConfig []).MySQL.Staging) ∧
    (∀ s ∈ (sampleConfig [specA, specB]).KafkaConsumers,
      (handlers s.HandlerName).isSome = true) ∧
    (∀ s ∈ (sampleConfig [specA, specB]).KafkaConsumers, openNonEmpty s.LogFile = none) ∧
    (∀ s ∈ (sampleConfig [specA, specB]).KafkaConsumers, s.Brokers ≠ [] ∧ s.Topic ≠ "") ∧
    List.Forall₂
      (BoundTo (sampleConfig []).Redis.Staging (sampleConfig []).Mongo.Staging
        (sampleConfig []).MySQL.Staging)
      (sampleConfig [specA, specB]).KafkaConsumers
      (main.startup (some "staging") (.ok (sampleConfig [specA, specB])) openNonEmpty).consumers :=
  ⟨rfl, by decide, by decide, by decide,
    (fleet_bound (some "staging") (sampleConfig [specA, specB]) openNonEmpty
      (sampleConfig []).Redis.Staging (sampleConfig []).Mongo.Staging
      (sampleConfig []).MySQL.Staging rfl (by decide) (by decide) (by decide)).2.2.2.2.1⟩

/-- C10: `GetEnvConfig` returns the Production, Staging or Development
components (all three from the same environment) for the names "production",
"staging" and "development"; for every other name it fails with the fatal
"Unknown environment" message, and `main` then exits with that message before
any engine is constructed; the `-env` flag defaults to "development". -/
theorem env_selection (env : String) (config : FullConfig)
    (openErr : String → Option String)
    (h : env ≠ "production" ∧ env ≠ "staging" ∧ env ≠ "development") :
    GetEnvConfig "production" config =
      .ok (config.Redis.Production, config.Mongo.Production, config.MySQL.Production) ∧
    GetEnvConfig "staging" config =
      .ok (config.Redis.Staging, config.Mongo.Staging, config.MySQL.Staging) ∧
    GetEnvConfig "development" config =
      .ok (config.Redis.Development, config.Mongo.Development, config.MySQL.Development) ∧
    GetEnvConfig env config = .error (Sprintf "Unknown environment: %s" [.str env]) ∧
    main.startup (some env) (.ok config) openErr =
      { trace := [.fatal (Sprintf "Unknown environment: %s" [.str env])], consumers := [],
        fatal := some (Sprintf "Unknown environment: %s" [.str env]) } ∧
    envFlag none = "development" ∧
    envFlag (some env) = env ∧
    main.startup none (.ok config) openErr = main.startup (some "development") (.ok config) openErr := by
  have he : GetEnvConfig env config = .error (Sprintf "Unknown environment: %s" [.str env]) := by
    simp [GetEnvConfig, h.1, h.2.1, h.2.2]
  refine ⟨rfl, rfl, rfl, he, ?_, rfl, rfl, rfl⟩
  simp [main.startup, envFlag, he]

/-- C10 (witness): the empty name and a differently-cased name are both
rejected. -/
theorem env_selection_witness :
    ("" ≠ "production" ∧ "" ≠ "staging" ∧ "" ≠ "development") ∧
    ("Production" ≠ "production" ∧ "Production" ≠ "staging" ∧ "Production" ≠ "development") ∧
    GetEnvConfig "" (sampleConfig [specA]) = .error "Unknown environment: " ∧
    GetEnvConfig "Production" (sampleConfig [specA]) =
      .error "Unknown environment: Production" :=
  ⟨by decide, by decide,
    (env_selection "" (sampleConfig [specA]) (fun _ => none) (by decide)).2.2.2.1,
    (env_selection "Production" (sampleConfig [specA]) (fun _ => none)
      (by decide)).2.2.2.1⟩

/-! ## Shut-down -/

theorem doPrintf_v_newline (err : String) :
    doPrintf none "%v\n".data [.str err] = err.data ++ ['\n'] := by
  have h : "%v\n".data = ['%', 'v', '\n'] := rfl
  simp [h, doPrintf, printArg, Arg.render, extraArgs]

theorem lineEnd_newline (s : String) : lineEnd (s ++ "\n") = "" := by
  have h : (s ++ "\n").data.getLast? = some '\n' := by
    rw [String.data_append]
    exact List.getLast?_concat _
  simp [lineEnd, h]

theorem printf_error_text (l : Logger) (stamp lit err : String) (h : '%' ∉ lit.data) :
    l.Printf stamp (lit ++ "%v\n") [.str err] = l.header stamp ++ (lit ++ err ++ "\n") := by
  have hs : Sprintf (lit ++ "%v\n") [.str err] = lit ++ err ++ "\n" := by
    apply String.ext
    simp only [Sprintf, String.data_append]
    rw [doPrintf_literal _ _ _ h, doPrintf_v_newline]
    simp
  rw [Logger.Printf, hs, lineEnd_newline, String.append_assoc]
  simp

theorem call_close_error (l : Logger) (stamp err : String) :
    l.call stamp "ERROR" "Error closing reader: %v\n" [.str err] =
      [l.header stamp ++ ("ERROR: Error closing reader: " ++ err ++ "\n")] := by
  rw [call_clean l stamp "ERROR" "Error closing reader: %v\n" _ (by decide)]
  rw [if_neg (fun h => absurd h.1 (by decide))]
  exact congrArg (fun x => [x])
    (printf_error_text l stamp "ERROR: Error closing reader: " err (by decide))

theorem call_commit_error (l : Logger) (stamp err : String) :
    l.call stamp "ERROR" "Failed to commit message: %v\n" [.str err] =
      [l.header stamp ++ ("ERROR: Failed to commit message: " ++ err ++ "\n")] := by
  rw [call_clean l stamp "ERROR" "Failed to commit message: %v\n" _ (by decide)]
  rw [if_neg (fun h => absurd h.1 (by decide))]
  exact congrArg (fun x => [x])
    (printf_error_text l stamp "ERROR: Failed to commit message: " err (by decide))

theorem call_received (l : Logger) (stamp : String) :
    l.call stamp "INFO" "Received termination signal. Shutting down..." [] =
      [l.header stamp ++ "INFO: Received termination signal. Shutting down...\n"] := by
  have h : l.call stamp "INFO" "Received termination signal. Shutting down..." [] =
      [l.header stamp ++ "INFO: Received termination signal. Shutting down..." ++ "\n"] := rfl
  rw [h, String.append_assoc]
  rfl

theorem call_stopped (l : Logger) (stamp : String) :
    l.call stamp "INFO" "Kafka consumer has been stopped." [] =
      [l.header stamp ++ "INFO: Kafka consumer has been stopped.\n"] := by
  have h : l.call stamp "INFO" "Kafka consumer has been stopped." [] =
      [l.header stamp ++ "INFO: Kafka consumer has been stopped." ++ "\n"] := rfl
  rw [h, String.append_assoc]
  rfl

theorem shutdown_flatMap (closeErr : Reader → Option String) (consumers : List KafkaConsumer) :
    main.shutdown closeErr consumers =
      consumers.flatMap fun kc =>
        [.log kc.logger "INFO" "Received termination signal. Shutting down..." [],
          .cancel kc.ctx, .closeReader kc.reader] ++
        (match closeErr kc.reader with
          | some err => [.log kc.logger "ERROR" "Error closing reader: %v\n" [.str err]]
          | none => []) ++
        [.log kc.logger "INFO" "Kafka consumer has been stopped." []] := by
  induction consumers with
  | nil => rfl
  | cons kc rest ih =>
    rw [main.shutdown, ih, List.flatMap_cons]
    simp [KafkaConsumer.Stop]

theorem createConsumers_ctx (r : RedisConfig) (mo : MongoConfig) (my : MySQLConfig)
    (openErr : String → Option String) (specs : List ConsumerConfig)
    (acc : List KafkaConsumer) (h : acc.map (fun kc => kc.ctx) = List.range acc.length) :
    (main.createConsumers r mo my openErr specs acc).consumers.map (fun kc => kc.ctx) =
      List.range (main.createConsumers r mo my openErr specs acc).consumers.length := by
  induction specs generalizing acc with
  | nil => simpa [main.createConsumers] using h
  | cons s rest ih =>
    cases hh : handlers s.HandlerName with
    | none => simpa [main.createConsumers, hh] using h
    | some hf =>
      cases hn : NewKafkaConsumer s ⟨hf, r, mo, my⟩ acc.length openErr with
      | error exit =>
        rw [createConsumers_exit r mo my openErr s rest acc hf exit hh hn]
        exact h
      | ok kc =>
        rw [createConsumers_step r mo my openErr s rest acc hf kc hh hn]
        apply ih
        obtain ⟨_, hv, hk⟩ := NewKafkaConsumer_ok s ⟨hf, r, mo, my⟩ acc.length openErr kc hn
        subst hk
        simp [h, newEngine, List.range_succ]

theorem startup_ctx (given : Option String) (file : Except String FullConfig)
    (openErr : String → Option String) :
    (main.startup given file openErr).consumers.map (fun kc => kc.ctx) =
      List.range (main.startup given file openErr).consumers.length := by
  cases file with
  | error err => simp [main.startup]
  | ok config =>
    cases he : GetEnvConfig (envFlag given) config with
    | error text => simp [main.startup, he]
    | ok triple =>
      obtain ⟨r, mo, my⟩ := triple
      have := createConsumers_ctx r mo my openErr config.KafkaConsumers [] rfl
      simpa [main.startup, he] using this

/-- C9: when start-up did not end the process, `main` waits for the signal
and then visits the engines in the order in which their `Start` launched them:
for each one it logs the INFO "Received termination signal. Shutting down..."
through the logger of that engine and right after that runs `Stop`, which
cancels the context of the engine, closes the reader the engine holds at that
moment, logs an ERROR if closing failed, and then logs the INFO "Kafka
consumer has been stopped.".  The engines have pairwise different contexts,
so each is stopped exactly once; and the three notices pass the filter of the
logger and are written as one line each. -/
theorem shutdown_in_start_order (given : Option String) (file : Except String FullConfig)
    (openErr : String → Option String) (readerNow : Nat → Reader)
    (closeErr : Reader → Option String) (l : Logger) (stamp err : String)
    (h : (main.startup given file openErr).fatal = none) :
    main given file openErr readerNow closeErr =
      (main.startup given file openErr).trace ++ [.awaitSignal] ++
        (((main.startup given file openErr).trace.filterMap Event.spawned).map
          fun kc => { kc with reader := readerNow kc.ctx }).flatMap (fun kc =>
            [Event.log kc.logger "INFO" "Received termination signal. Shutting down..." [],
              Event.cancel kc.ctx, Event.closeReader kc.reader] ++
            (match closeErr kc.reader with
              | some err =>
                [Event.log kc.logger "ERROR" "Error closing reader: %v\n" [Arg.str err]]
              | none => []) ++
            [Event.log kc.logger "INFO" "Kafka consumer has been stopped." []]) ∧
    ((main.startup given file openErr).trace.filterMap Event.spawned).map (fun kc => kc.ctx) =
      List.range ((main.startup given file openErr).trace.filterMap Event.spawned).length ∧
    l.call stamp "INFO" "Received termination signal. Shutting down..." [] =
      [l.header stamp ++ "INFO: Received termination signal. Shutting down...\n"] ∧
    l.call stamp "ERROR" "Error closing reader: %v\n" [.str err] =
      [l.header stamp ++ ("ERROR: Error closing reader: " ++ err ++ "\n")] ∧
    l.call stamp "INFO" "Kafka consumer has been stopped." [] =
      [l.header stamp ++ "INFO: Kafka consumer has been stopped.\n"] := by
  refine ⟨?_, ?_, call_received l stamp, call_close_error l stamp err, call_stopped l stamp⟩
  · rw [startup_spawned, ← shutdown_flatMap]
    simp only [main, h]
  · rw [startup_spawned]
    exact startup_ctx given file openErr

/-- C9 (witness): two engines, `topicA` and `topicB`, stopped in that order;
closing the reader of the second one fails. -/
theorem shutdown_in_start_order_witness :
    (main.startup none (.ok (sampleConfig [specA, specB])) openNonEmpty).fatal = none ∧
    (main none (.ok (sampleConfig [specA, specB])) openNonEmpty
        (fun ctx => acceptedReader ["localhost:9092"] "t" "g" (customLogger "X" "x.log" false)
          (ctx + 3))
        (fun r => if r.gen = 4 then some "closed" else none)).filterMap
        (fun e => match e with
          | .cancel ctx => some ctx
          | _ => none) = [0, 1] ∧
    ((main.startup none (.ok (sampleConfig [specA, specB])) openNonEmpty).trace.filterMap
        Event.spawned).map (fun kc => kc.ctx) =
      List.range ((main.startup none (.ok (sampleConfig [specA, specB]))
        openNonEmpty).trace.filterMap Event.spawned).length :=
  ⟨by decide, by decide,
    (shutdown_in_start_order none (.ok (sampleConfig [specA, specB])) openNonEmpty
      (fun ctx => acceptedReader ["localhost:9092"] "t" "g" (customLogger "X" "x.log" false)
        (ctx + 3))
      (fun r => if r.gen = 4 then some "closed" else none)
      (customLogger "A" "a.log" false) "T" "closed" (by decide)).2.1⟩

/-! ## The consume loop: delivery and commit -/

theorem iteration_deliveries (kc : KafkaConsumer) (w : Bool) (f : Fetched) :
    (kc.iteration w f).2.2.filterMap Event.delivery = f.deliveries := by
  cases f with
  | error err =>
    rw [iteration_error]
    cases w <;> simp [Event.delivery, Fetched.deliveries]
  | message m c =>
    cases w <;> cases c <;>
      simp [KafkaConsumer.iteration, Event.delivery, Fetched.deliveries, HandleMessage.invoke]

theorem iteration_commitFailure (kc : KafkaConsumer) (w : Bool) (f : Fetched) :
    (kc.iteration w f).2.2.filterMap Event.commitFailure = f.commitErr.toList := by
  cases f with
  | error err =>
    rw [iteration_error]
    cases w <;> simp [Event.commitFailure, Fetched.commitErr]
  | message m c =>
    cases w <;> cases c <;>
      simp [KafkaConsumer.iteration, Event.commitFailure, Fetched.commitErr,
        HandleMessage.invoke]

theorem iteration_committed (kc : KafkaConsumer) (w : Bool) (f : Fetched) :
    (kc.iteration w f).1 = (kc.iteration w f.committed).1 ∧
    (kc.iteration w f).2.1 = (kc.iteration w f.committed).2.1 ∧
    (kc.iteration w f).2.2.filter (fun e => !e.commitFailure.isSome) =
      (kc.iteration w f.committed).2.2 := by
  cases f with
  | error err =>
    simp only [Fetched.committed]
    rw [iteration_error]
    cases w <;> simp [Event.commitFailure]
  | message m c =>
    cases w <;> cases c <;>
      simp [KafkaConsumer.iteration, Event.commitFailure, Fetched.committed,
        HandleMessage.invoke]

theorem consume_deliveries (kc : KafkaConsumer) (w : Bool) (outcomes : List Fetched) :
    (kc.consume w (outcomes.map Poll.fetch)).trace.filterMap Event.delivery =
      outcomes.flatMap Fetched.deliveries := by
  induction outcomes generalizing kc w with
  | nil => rfl
  | cons f rest ih =>
    rw [List.map_cons, consume_fetch_cons, List.flatMap_cons]
    simp only [List.filterMap_append, iteration_deliveries, ih]

theorem consume_commitFailures (kc : KafkaConsumer) (w : Bool) (outcomes : List Fetched) :
    (kc.consume w (outcomes.map Poll.fetch)).trace.filterMap Event.commitFailure =
      outcomes.filterMap Fetched.commitErr := by
  induction outcomes generalizing kc w with
  | nil => rfl
  | cons f rest ih =>
    rw [List.map_cons, consume_fetch_cons]
    simp only [List.filterMap_append, iteration_commitFailure, ih]
    cases h : f.commitErr <;> simp [List.filterMap_cons, h]

theorem consume_committed (kc : KafkaConsumer) (w : Bool) (outcomes : List Fetched) :
    (kc.consume w (outcomes.map Poll.fetch)).kc =
      (kc.consume w ((outcomes.map Fetched.committed).map Poll.fetch)).kc ∧
    (kc.consume w (outcomes.map Poll.fetch)).wasDisconnected =
      (kc.consume w ((outcomes.map Fetched.committed).map Poll.fetch)).wasDisconnected ∧
    (kc.consume w (outcomes.map Poll.fetch)).returned =
      (kc.consume w ((outcomes.map Fetched.committed).map Poll.fetch)).returned ∧
    (kc.consume w (outcomes.map Poll.fetch)).trace.filter (fun e => !e.commitFailure.isSome) =
      (kc.consume w ((outcomes.map Fetched.committed).map Poll.fetch)).trace := by
  induction outcomes generalizing kc w with
  | nil => simp [KafkaConsumer.consume]
  | cons f rest ih =>
    obtain ⟨h1, h2, h3⟩ := iteration_committed kc w f
    simp only [List.map_cons, consume_fetch_cons, List.filter_append]
    rw [← h1, ← h2, h3]
    obtain ⟨i1, i2, i3, i4⟩ := ih (kc.iteration w f).1 (kc.iteration w f).2.1
    exact ⟨i1, i2, i3, by rw [i4]⟩

/-- C7: over any sequence of fetch outcomes, the handler calls and offset
commits of the loop are, in fetch order, one handler call with the fetched
message followed by one commit of that same message, for each successful
fetch and for nothing else.  A commit that fails adds one ERROR "Failed to
commit message" call, written as one line, and changes nothing else: the
engine (so its reader), the failure flag and every other event, sleeps and
closes included, are those of the run in which every commit succeeds. -/
theorem commit_failure_ignored (kc : KafkaConsumer) (w : Bool) (outcomes : List Fetched)
    (message : Message) (stamp err : String) :
    (kc.consume w (outcomes.map Poll.fetch)).trace.filterMap Event.delivery =
      outcomes.flatMap Fetched.deliveries ∧
    (kc.consume w (outcomes.map Poll.fetch)).trace.filterMap Event.commitFailure =
      outcomes.filterMap Fetched.commitErr ∧
    (kc.consume w (outcomes.map Poll.fetch)).kc =
      (kc.consume w ((outcomes.map Fetched.committed).map Poll.fetch)).kc ∧
    (kc.consume w (outcomes.map Poll.fetch)).wasDisconnected =
      (kc.consume w ((outcomes.map Fetched.committed).map Poll.fetch)).wasDisconnected ∧
    (kc.consume w (outcomes.map Poll.fetch)).trace.filter (fun e => !e.commitFailure.isSome) =
      (kc.consume w ((outcomes.map Fetched.committed).map Poll.fetch)).trace ∧
    kc.iteration w (.message message (some err)) =
      (kc, false, (kc.iteration w (.message message none)).2.2 ++
        [.log kc.logger "ERROR" "Failed to commit message: %v\n" [.str err]]) ∧
    (kc.iteration w (.message message none)).2.2 =
      [.fetch kc.reader] ++
        (if w then
          [.log kc.logger "INFO" "Reconnected to Kafka successfully. Consumer is ready." []]
        else []) ++
        [.handle kc.handleMessage.handlerFunc message kc.consumerConfig kc.logger
            kc.handleMessage.redisConfig kc.handleMessage.mongoConfig
            kc.handleMessage.mysqlConfig,
          .commit kc.reader message] ∧
    kc.logger.call stamp "ERROR" "Failed to commit message: %v\n" [.str err] =
      [kc.logger.header stamp ++ ("ERROR: Failed to commit message: " ++ err ++ "\n")] := by
  obtain ⟨h1, h2, _, h4⟩ := consume_committed kc w outcomes
  refine ⟨consume_deliveries kc w outcomes, consume_commitFailures kc w outcomes, h1, h2, h4,
    ?_, ?_, call_commit_error kc.logger stamp err⟩
  · simp [KafkaConsumer.iteration]
  · cases w <;> simp [KafkaConsumer.iteration, HandleMessage.invoke]

/-! ## The consume loop: the retry cycle -/

theorem readerAfter_step (kc : KafkaConsumer) (w : Bool) (err : String) (i : Nat) :
    (kc.iteration w (.error err)).1.readerAfter i = kc.readerAfter (i + 1) := by
  rw [iteration_error]
  cases i with
  | zero => simp [KafkaConsumer.readerAfter]
  | succ n => simp [KafkaConsumer.readerAfter, acceptedReader, Nat.add_assoc, Nat.add_comm 1]

theorem iteration_error_steps (kc : KafkaConsumer) (w : Bool) (err : String) :
    (kc.iteration w (.error err)).2.2.filter Event.isRetryStep =
      [.fetch (kc.readerAfter 0), .sleep 5, .newReader (kc.readerAfter 1)] := by
  rw [iteration_error]
  cases w <;> simp [Event.isRetryStep, KafkaConsumer.readerAfter]

theorem consume_errors (kc : KafkaConsumer) (w : Bool) (errs : List String) :
    (kc.consume w ((errs.map Fetched.error).map Poll.fetch)).trace.filter Event.isRetryStep =
      (List.range errs.length).flatMap (fun i =>
        [Event.fetch (kc.readerAfter i), Event.sleep 5, Event.newReader (kc.readerAfter (i + 1))]) ∧
    (kc.consume w ((errs.map Fetched.error).map Poll.fetch)).kc =
      { kc with reader := kc.readerAfter errs.length } ∧
    (kc.consume w ((errs.map Fetched.error).map Poll.fetch)).wasDisconnected =
      (w || !errs.isEmpty) ∧
    (kc.consume w ((errs.map Fetched.error).map Poll.fetch)).returned = false := by
  induction errs generalizing kc w with
  | nil => simp [KafkaConsumer.consume, KafkaConsumer.readerAfter]
  | cons err rest ih =>
    obtain ⟨h1, h2, h3, h4⟩ := ih (kc.iteration w (.error err)).1 (kc.iteration w (.error err)).2.1
    simp only [List.map_cons, consume_fetch_cons, List.filter_append, iteration_error_steps]
    refine ⟨?_, ?_, ?_, h4⟩
    · rw [h1, List.length_cons, List.range_succ_eq_map, List.flatMap_cons, List.flatMap_map]
      simp only [readerAfter_step]
    · rw [h2, readerAfter_step, iteration_error]
      rfl
    · rw [h3, iteration_wasDisconnected]
      simp [Fetched.failed]

theorem iteration_head (kc : KafkaConsumer) (w : Bool) (f : Fetched) :
    (kc.iteration w f).2.2.head? = some (.fetch kc.reader) := by
  cases f with
  | error err => rw [iteration_error]; rfl
  | message m c => rfl

theorem consume_reader_config (kc : KafkaConsumer) (w : Bool) (polls : List Poll)
    (config : ReaderConfig)
    (h0 : kc.reader.config = config)
    (h : ∀ gen, (acceptedReader kc.consumerConfig.Brokers kc.consumerConfig.Topic
      kc.consumerConfig.GroupID kc.logger gen).config = config) :
    (kc.consume w polls).kc.reader.config = config ∧
    (kc.consume w polls).kc.consumerConfig = kc.consumerConfig ∧
    (kc.consume w polls).kc.logger = kc.logger := by
  induction polls generalizing kc w with
  | nil => exact ⟨h0, rfl, rfl⟩
  | cons p rest ih =>
    cases p with
    | done => exact ⟨h0, rfl, rfl⟩
    | fetch f =>
      rw [consume_fetch_cons]
      obtain ⟨_, e2, e3, _⟩ := iteration_engine kc w f
      have hr : (kc.iteration w f).1.reader.config = config := by
        cases f with
        | error err => rw [iteration_error]; exact h _
        | message m c => exact h0
      obtain ⟨i1, i2, i3⟩ := ih (kc.iteration w f).1 (kc.iteration w f).2.1 hr
        (by rw [e2, e3]; exact h)
      exact ⟨i1, by rw [i2, e2], by rw [i3, e3]⟩

/-- C8: take an engine built by `NewKafkaConsumer` whose loop has already met
any outcomes `pre`, and let any number of fetches fail after that.  Each
failed fetch is followed by exactly one sleep of 5 seconds and the
construction of exactly one new reader, and the next fetch is made on that
new reader; the loop has not returned, whatever the number of failures, and
its next turn fetches again.  Every reader has the configuration of the
initial one: brokers, topic and group of the spec, `MinBytes` 1, `MaxBytes`
10000000, `MaxWait` 500 ms, and the DEBUG forwarder to the logger of the
engine; the readers constructed are new ones. -/
theorem reconnect_cycle (config : ConsumerConfig) (handler : HandleMessage) (ctx : Nat)
    (openErr : String → Option String) (kc : KafkaConsumer) (pre : List Fetched)
    (errs : List String) (next : Fetched)
    (hnew : NewKafkaConsumer config handler ctx openErr = .ok kc) :
    (((kc.consume false (pre.map Poll.fetch)).kc.consume
        (kc.consume false (pre.map Poll.fetch)).wasDisconnected
        ((errs.map Fetched.error).map Poll.fetch)).trace.filter Event.isRetryStep =
      (List.range errs.length).flatMap (fun i =>
        [Event.fetch ((kc.consume false (pre.map Poll.fetch)).kc.readerAfter i), Event.sleep 5,
          Event.newReader ((kc.consume false (pre.map Poll.fetch)).kc.readerAfter (i + 1))])) ∧
    ((kc.consume false (pre.map Poll.fetch)).kc.consume
        (kc.consume false (pre.map Poll.fetch)).wasDisconnected
        ((errs.map Fetched.error).map Poll.fetch)).returned = false ∧
    (((kc.consume false (pre.map Poll.fetch)).kc.consume
        (kc.consume false (pre.map Poll.fetch)).wasDisconnected
        ((errs.map Fetched.error).map Poll.fetch)).kc.iteration
      ((kc.consume false (pre.map Poll.fetch)).kc.consume
        (kc.consume false (pre.map Poll.fetch)).wasDisconnected
        ((errs.map Fetched.error).map Poll.fetch)).wasDisconnected next).2.2.head? =
      some (.fetch ((kc.consume false (pre.map Poll.fetch)).kc.readerAfter errs.length)) ∧
    (∀ i, ((kc.consume false (pre.map Poll.fetch)).kc.readerAfter i).config = kc.reader.config) ∧
    (∀ i, ((kc.consume false (pre.map Poll.fetch)).kc.readerAfter (i + 1)).gen =
      (kc.consume false (pre.map Poll.fetch)).kc.reader.gen + (i + 1)) ∧
    kc.reader.config =
      { Brokers := config.Brokers, Topic := config.Topic, GroupID := config.GroupID,
        MinBytes := 1, MaxBytes := 10000000, MaxWait := 500,
        Logger :=
          { level := "DEBUG",
            logger := customLogger config.LogPrefix config.LogFile config.DebugMode } } := by
  obtain ⟨_, hv, hk⟩ := NewKafkaConsumer_ok config handler ctx openErr kc hnew
  obtain ⟨c1, c2, c3⟩ := consume_reader_config kc false (pre.map Poll.fetch) kc.reader.config rfl
    (by subst hk; intro gen; rfl)
  obtain ⟨h1, h2, _, h4⟩ := consume_errors (kc.consume false (pre.map Poll.fetch)).kc
    (kc.consume false (pre.map Poll.fetch)).wasDisconnected errs
  refine ⟨h1, h4, ?_, ?_, ?_, by subst hk; rfl⟩
  · rw [iteration_head, h2]
  · intro i
    unfold KafkaConsumer.readerAfter
    split
    · exact c1
    · rw [c2, c3]
      subst hk
      rfl
  · intro i
    simp [KafkaConsumer.readerAfter, acceptedReader]

/-- C8 (witness): the engine of `topicA`, three failed fetches in a row right
after start. -/
theorem reconnect_cycle_witness :
    NewKafkaConsumer specA ⟨.handler1, ⟨"localhost", 6379⟩,
        ⟨"localhost", 27017, "dev", "dev", "main"⟩, ⟨"localhost", 3306, "dev", "dev", "main"⟩⟩
        0 openNonEmpty =
      .ok (newEngine specA ⟨.handler1, ⟨"localhost", 6379⟩,
        ⟨"localhost", 27017, "dev", "dev", "main"⟩, ⟨"localhost", 3306, "dev", "dev", "main"⟩⟩
        0 (by decide)) ∧
    (((newEngine specA ⟨.handler1, ⟨"localhost", 6379⟩,
        ⟨"localhost", 27017, "dev", "dev", "main"⟩, ⟨"localhost", 3306, "dev", "dev", "main"⟩⟩
        0 (by decide)).consume false
      ((["down", "down", "down"].map Fetched.error).map Poll.fetch)).trace.filterMap
      fun e => match e with
        | .sleep seconds => some seconds
        | _ => none) = [5, 5, 5] ∧
    (((newEngine specA ⟨.handler1, ⟨"localhost", 6379⟩,
        ⟨"localhost", 27017, "dev", "dev", "main"⟩, ⟨"localhost", 3306, "dev", "dev", "main"⟩⟩
        0 (by decide)).consume false ([].map Poll.fetch)).kc.consume
        ((newEngine specA ⟨.handler1, ⟨"localhost", 6379⟩,
          ⟨"localhost", 27017, "dev", "dev", "main"⟩,
          ⟨"localhost", 3306, "dev", "dev", "main"⟩⟩ 0 (by decide)).consume false
          ([].map Poll.fetch)).wasDisconnected
        ((["down", "down", "down"].map Fetched.error).map Poll.fetch)).returned = false :=
  ⟨rfl, by decide,
    (reconnect_cycle specA ⟨.handler1, ⟨"localhost", 6379⟩,
      ⟨"localhost", 27017, "dev", "dev", "main"⟩, ⟨"localhost", 3306, "dev", "dev", "main"⟩⟩
      0 openNonEmpty _ [] ["down", "down", "down"] (.error "down") rfl).2.1⟩

/-! ## The consume loop: ownership of readers -/

theorem openReaders_append (opened : List Reader) (a b : List Event) :
    openReaders opened (a ++ b) = openReaders (openReaders opened a) b := by
  induction a generalizing opened with
  | nil => rfl
  | cons e a ih => cases e <;> simp [openReaders, ih]

theorem openReaders_retry (kc : KafkaConsumer) (opened : List Reader) (errs : List String) :
    openReaders opened (kc.consume true ((errs.map Fetched.error).map Poll.fetch)).trace =
      opened ++ (List.range errs.length).map (fun i => kc.readerAfter (i + 1)) := by
  induction errs generalizing kc opened with
  | nil => simp [KafkaConsumer.consume, openReaders]
  | cons err rest ih =>
    rw [List.map_cons, List.map_cons, consume_fetch_cons]
    simp only [openReaders_append]
    have hstep : openReaders opened (kc.iteration true (.error err)).2.2 =
        opened ++ [kc.readerAfter 1] := by
      rw [iteration_error]
      simp [openReaders]
    have hw : (kc.iteration true (.error err)).2.1 = true := iteration_wasDisconnected _ _ _
    rw [hstep, hw, ih, List.length_cons, List.range_succ_eq_map, List.map_cons, List.map_map]
    simp only [readerAfter_step, List.append_assoc, List.singleton_append]
    rfl

theorem openReaders_first (kc : KafkaConsumer) (err : String) :
    openReaders [kc.reader] (kc.iteration false (.error err)).2.2 = [kc.readerAfter 1] := by
  rw [iteration_error]
  simp [openReaders]

theorem openReaders_failures (kc : KafkaConsumer) (err : String) (errs : List String) :
    openReaders [kc.reader]
        (kc.consume false (((err :: errs).map Fetched.error).map Poll.fetch)).trace =
      (List.range (errs.length + 1)).map (fun i => kc.readerAfter (i + 1)) := by
  rw [List.map_cons, List.map_cons, consume_fetch_cons]
  simp only [openReaders_append, openReaders_first]
  have hw : (kc.iteration false (.error err)).2.1 = true := iteration_wasDisconnected _ _ _
  rw [hw, openReaders_retry, List.range_succ_eq_map, List.map_cons, List.map_map]
  simp only [readerAfter_step, List.singleton_append]
  rfl

theorem closed_retry (kc : KafkaConsumer) (errs : List String) :
    (kc.consume true ((errs.map Fetched.error).map Poll.fetch)).trace.filterMap Event.closed
      = [] := by
  induction errs generalizing kc with
  | nil => rfl
  | cons err rest ih =>
    rw [List.map_cons, List.map_cons, consume_fetch_cons]
    have hw : (kc.iteration true (.error err)).2.1 = true := iteration_wasDisconnected _ _ _
    simp only [List.filterMap_append, hw, ih]
    rw [iteration_error]
    simp [Event.closed]

theorem closed_failures (kc : KafkaConsumer) (err : String) (errs : List String) :
    (kc.consume false (((err :: errs).map Fetched.error).map Poll.fetch)).trace.filterMap
      Event.closed = [kc.reader] := by
  rw [List.map_cons, List.map_cons, consume_fetch_cons]
  have hw : (kc.iteration false (.error err)).2.1 = true := iteration_wasDisconnected _ _ _
  simp only [List.filterMap_append, hw, closed_retry]
  rw [iteration_error]
  simp [Event.closed]

theorem readerAfter_gen (kc : KafkaConsumer) (i : Nat) :
    (kc.readerAfter i).gen = kc.reader.gen + i := by
  cases i <;> simp [KafkaConsumer.readerAfter, acceptedReader]

theorem filter_last_reader (kc : KafkaConsumer) (n : Nat) :
    ((List.range (n + 1)).map fun i => kc.readerAfter (i + 1)).filter
        (fun x => decide (x ≠ kc.readerAfter (n + 1))) =
      (List.range n).map fun i => kc.readerAfter (i + 1) := by
  rw [List.range_succ, List.map_append, List.filter_append]
  have h1 : ((List.range n).map fun i => kc.readerAfter (i + 1)).filter
      (fun x => decide (x ≠ kc.readerAfter (n + 1))) =
      (List.range n).map fun i => kc.readerAfter (i + 1) := by
    rw [List.filter_eq_self]
    intro x hx
    obtain ⟨i, hi, rfl⟩ := List.mem_map.mp hx
    have hlt : i < n := List.mem_range.mp hi
    apply decide_eq_true
    intro e
    have := congrArg Reader.gen e
    rw [readerAfter_gen, readerAfter_gen] at this
    omega
  rw [h1]
  simp

theorem openReaders_stop (kc : KafkaConsumer) (closeErr : Option String)
    (opened : List Reader) :
    openReaders opened (kc.Stop closeErr) = opened.filter fun x => decide (x ≠ kc.reader) := by
  cases closeErr <;> simp [KafkaConsumer.Stop, openReaders]

/-- C11 (the code at the failing input): start from an engine whose only open
reader is the one it holds and let one fetch fail, then any further fetches
fail right after it.  The loop closes a reader once, the one held at the
first failure, and constructs a new reader at every failure; so after these
failures every reader constructed since is still open, one per failure, while
the engine holds only the last of them.  With two or more failures the
readers before the last were replaced without having been closed, and a
later `Stop`, which closes the reader the engine holds, leaves them open. -/
theorem reader_dropped_unclosed (kc : KafkaConsumer) (err : String) (errs : List String)
    (closeErr : Option String) :
    openReaders [kc.reader]
        (kc.consume false (((err :: errs).map Fetched.error).map Poll.fetch)).trace =
      (List.range (errs.length + 1)).map (fun i => kc.readerAfter (i + 1)) ∧
    (kc.consume false (((err :: errs).map Fetched.error).map Poll.fetch)).kc.reader =
      kc.readerAfter (errs.length + 1) ∧
    (kc.consume false (((err :: errs).map Fetched.error).map Poll.fetch)).trace.filterMap
      Event.closed = [kc.reader] ∧
    (∀ i, (kc.readerAfter i).gen = kc.reader.gen + i) ∧
    (openReaders [kc.reader]
        (kc.consume false (((err :: errs).map Fetched.error).map Poll.fetch)).trace).length =
      errs.length + 1 ∧
    openReaders [kc.reader]
        ((kc.consume false (((err :: errs).map Fetched.error).map Poll.fetch)).trace ++
          (kc.consume false (((err :: errs).map Fetched.error).map Poll.fetch)).kc.Stop
            closeErr) =
      (List.range errs.length).map (fun i => kc.readerAfter (i + 1)) := by
  have h1 := openReaders_failures kc err errs
  have h2 : (kc.consume false (((err :: errs).map Fetched.error).map Poll.fetch)).kc.reader =
      kc.readerAfter (errs.length + 1) := by
    rw [(consume_errors kc false (err :: errs)).2.1]
    rfl
  refine ⟨h1, h2, closed_failures kc err errs, readerAfter_gen kc, ?_, ?_⟩
  · rw [h1]
    simp
  · rw [openReaders_append, h1, openReaders_stop, h2]
    exact filter_last_reader kc errs.length

/-! ## The handlers: notices that name the topic -/

theorem call_topic_notice (l : Logger) (stamp level : String) (args : List Arg) :
    l.call stamp level "Handler1 processing message with topic: %s" args = [] ∧
    l.call stamp level "Successfully processed message from topic: %s" args = [] ∧
    l.call stamp level "Handler2 processing message with topic: %s" args = [] :=
  ⟨call_suppressed l stamp level _ args (by decide),
    call_suppressed l stamp level _ args (by decide),
    call_suppressed l stamp level _ args (by decide)⟩

theorem handler1_last (lib : GoLib) (message : Message) (config : ConsumerConfig)
    (logFunc : Logger) (r : RedisConfig) (mo : MongoConfig) (my : MySQLConfig)
    (data : List (String × Json)) (h : lib.unmarshal message.Value = .ok data) :
    (handler1 lib message config logFunc r mo my).getLast? =
      some (.log logFunc "INFO" "Successfully processed message from topic: %s"
        [.str config.Topic]) := by
  unfold handler1
  rw [h]
  simp only [← List.append_assoc]
  rw [List.getLast?_append]
  rfl

/-- C12 (the code at the failing input): run with a logger made by
`customLogger`, whatever its debug flag, `handler1` and `handler2` do make
their "processing message with topic" call first, and `handler1` makes its
"Successfully processed message from topic" call last whenever the payload
decodes; but each of the three templates contains "topic: ", so the logger
writes nothing for them.  All that `handler2` leaves in the log file are its
three store lines, and `handler1` on a payload that decodes, with the debug
flag off and no `mappings` setting, leaves nothing at all. -/
theorem handler_notices_dropped (lib : GoLib) (message : Message) (config : ConsumerConfig)
    (tag file : String) (enableDebug : Bool) (r : RedisConfig) (mo : MongoConfig)
    (my : MySQLConfig) (stamp : String) :
    (handler1 lib message config (customLogger tag file enableDebug) r mo my).head? =
      some (.log (customLogger tag file enableDebug) "INFO"
        "Handler1 processing message with topic: %s" [.str config.Topic]) ∧
    (match lib.unmarshal message.Value with
      | .ok _ =>
        (handler1 lib message config (customLogger tag file enableDebug) r mo my).getLast? =
          some (.log (customLogger tag file enableDebug) "INFO"
            "Successfully processed message from topic: %s" [.str config.Topic])
      | .error _ => True) ∧
    (handler2 lib message config (customLogger tag file enableDebug) r mo my).head? =
      some (.log (customLogger tag file enableDebug) "INFO"
        "Handler2 processing message with topic: %s" [.str config.Topic]) ∧
    (customLogger tag file enableDebug).call stamp "INFO"
      "Handler1 processing message with topic: %s" [.str config.Topic] = [] ∧
    (customLogger tag file enableDebug).call stamp "INFO"
      "Successfully processed message from topic: %s" [.str config.Topic] = [] ∧
    (customLogger tag file enableDebug).call stamp "INFO"
      "Handler2 processing message with topic: %s" [.str config.Topic] = [] ∧
    sink stamp (handler2 lib message config (customLogger tag file enableDebug) r mo my) =
      (customLogger tag file enableDebug).call stamp "INFO" "Redis Host: %s, Port: %d"
          [.str r.Host, .int r.Port] ++
        (customLogger tag file enableDebug).call stamp "INFO" "Mongo Server: %s, Port: %d"
          [.str mo.Server, .int mo.Port] ++
        (customLogger tag file enableDebug).call stamp "INFO" "MySQL Host: %s, Port: %d"
          [.str my.Host, .int my.Port] ∧
    sink "T" (handler1 sampleLib ⟨"topicA", 0, 7, [], [123, 125]⟩ specA
      (customLogger "A" "a.log" false) ⟨"localhost", 6379⟩
      ⟨"localhost", 27017, "dev", "dev", "main"⟩ ⟨"localhost", 3306, "dev", "dev", "main"⟩) =
      [] ∧
    sink "T" (handler2 sampleLib ⟨"topicB", 0, 7, [], [123, 125]⟩ specB
      (customLogger "B" "b.log" true) ⟨"localhost", 6379⟩
      ⟨"localhost", 27017, "dev", "dev", "main"⟩ ⟨"localhost", 3306, "dev", "dev", "main"⟩) =
      ["[B] T consumer.go:48: INFO: Redis Host: localhost, Port: 6379\n",
        "[B] T consumer.go:48: INFO: Mongo Server: localhost, Port: 27017\n",
        "[B] T consumer.go:48: INFO: MySQL Host: localhost, Port: 3306\n"] := by
  obtain ⟨n1, n2, n3⟩ := call_topic_notice (customLogger tag file enableDebug) stamp "INFO"
    [.str config.Topic]
  refine ⟨rfl, ?_, rfl, n1, n2, n3, ?_, by decide, by decide⟩
  · cases h : lib.unmarshal message.Value with
    | error err => trivial
    | ok data => exact handler1_last lib message config _ r mo my data h
  · simp only [handler2, sink, n3, List.nil_append, List.append_nil, List.append_assoc]

end Multiconsumer
